import Mathlib

/-!
Verification of the NewsScope India collection pipeline (360_FEEDBACK_SYSTEM_USING_AIML).

This file gives a shallow embedding, in Lean 4, of the parts of the Python
backend that the specification's claims are about:

* `app/utils.py`           — `normalize_sentiment`
* `app/nlp_model.py`       — `_convert_to_polarity` and the polarity attachment
* `app/language_processor.py` — `detect_language`, `translate_to_english`
* `ai_pipeline/language_detector.py` — `LanguageDetector.detect`
* `app/content_classifier.py` — `is_international_news`, `classify_content`,
  `_determine_sub_category`, `_should_show_to_pib`
* `app/schemes_database.py` — `find_schemes_in_text`
* `app/confidence_scorer.py` — `calculate_confidence_score` and its helpers
* `app/database.py`        — `Database.upsert_article`
* `app/news_collector.py`  — the save / count / alert-trigger logic of
  `collect_once` and the scheme-boost step of `_entry_to_article`
* `app/async_collector.py` — the created/updated counting of `collect_async`

Modelling conventions:

* Python floats are modelled as `ℚ`; every constant in the relevant code is an
  exact decimal so no rounding behaviour is lost.  (`round(x, 2)` in
  `calculate_confidence_score` is applied to a sum of multiples of `0.05`
  clamped to `[0,1]`, on which it is the identity, and is therefore omitted;
  similarly `round(polarity, 3)` in `nlp_model.py`.)
* Python's `needle in haystack` on strings is substring containment,
  embedded as `pyIn`.
* Python's `str.split()` (split on whitespace runs) is embedded as `pySplit`.
* External services (the statistical language detector, the translation
  providers, the HTML stripper) are parameters of the embedded functions:
  the theorems quantify over their behaviour.
* Article dictionaries are embedded as association lists of string keys to a
  small value type `AVal`, because the key/value distinction (`"schemes"`
  versus `"goi_schemes"`) is essential to the alert-trigger claims.
-/

namespace NewsScope

/-- ASCII lowercase of one character.  Python's `str.lower()` is
Unicode-aware, but every script this system lowercases beyond ASCII
(Devanagari, Kannada, Tamil, …) is caseless, so ASCII lowering coincides with
the source's behaviour on the relevant alphabets. -/
def lowerChar (c : Char) : Char :=
  if 'A' ≤ c ∧ c ≤ 'Z' then Char.ofNat (c.toNat + 32) else c

/-- Python's `str.lower()` (see `lowerChar`). -/
def pyLower (s : String) : String := ⟨s.data.map lowerChar⟩

/-- Python's `str.strip()`: drop leading and trailing whitespace. -/
def pyStrip (s : String) : String :=
  ⟨((s.data.dropWhile Char.isWhitespace).reverse.dropWhile Char.isWhitespace).reverse⟩

/-- Substring test on character lists: `subList n h` is true iff `n` occurs
contiguously inside `h`.  This is Python's `n in h` for strings. -/
def subList : List Char → List Char → Bool
  | n, [] => n.isEmpty
  | n, c :: rest => n.isPrefixOf (c :: rest) || subList n rest

/-- Python's `needle in haystack` for strings. -/
def pyIn (needle haystack : String) : Bool :=
  subList needle.toList haystack.toList

/-- Splitting helper for `pySplit`: cut a character list at every whitespace
character. -/
def splitWsAux : List Char → List Char → List (List Char)
  | [], acc => [acc.reverse]
  | c :: rest, acc =>
    if c.isWhitespace then acc.reverse :: splitWsAux rest []
    else splitWsAux rest (c :: acc)

/-- Python's `str.split()` with no argument: split on whitespace runs,
discarding empty pieces. -/
def pySplit (s : String) : List String :=
  ((splitWsAux s.data []).map (fun l => (⟨l⟩ : String))).filter (fun w => w ≠ "")

/-- Values stored in an embedded Python dict / ORM row. -/
inductive AVal where
  | s (v : String)
  | q (v : ℚ)
  | b (v : Bool)
  | lst (v : List String)
  | nil
deriving DecidableEq

/-- An embedded Python dict: an association list from keys to values. -/
abbrev PyDict := List (String × AVal)

/-- Lookup of a key in an embedded dict (`d.get(k)` up to the default). -/
def dictFind (d : PyDict) (k : String) : Option AVal :=
  (d.find? (fun kv => kv.1 == k)).map (fun kv => kv.2)

/-- Python `d.get(k) or ""` followed by use as a string: a missing key, a
`None` value or a non-string value yields `""`. -/
def dictGetStr (d : PyDict) (k : String) : String :=
  match dictFind d k with
  | some (AVal.s v) => v
  | _ => ""

/-- Python `d.get(k, 0.0)` used as a number. -/
def dictGetQ (d : PyDict) (k : String) : ℚ :=
  match dictFind d k with
  | some (AVal.q v) => v
  | _ => 0

/-- Python `d.get(k, [])` used as a list of strings. -/
def dictGetList (d : PyDict) (k : String) : List String :=
  match dictFind d k with
  | some (AVal.lst v) => v
  | _ => []

/-! ## Sentiment normalisation and polarity

Embeds `normalize_sentiment` from `app/utils.py` and `_convert_to_polarity`
from `app/nlp_model.py`, and their composition along the collector path
(`app/news_collector.py`, `_entry_to_article`): the NLP model attaches
`polarity = _convert_to_polarity(label, score)` to the sentiment dict, and the
collector then stores `normalize_sentiment`'s re-assigned label next to that
unchanged polarity. -/

/-- Model-label mapping of `normalize_sentiment` (`app/utils.py`). -/
def label_map : List (String × String) := [
  ("LABEL_0", "negative"), ("LABEL_1", "neutral"), ("LABEL_2", "positive"),
  ("1 star", "negative"), ("2 stars", "negative"), ("3 stars", "neutral"),
  ("4 stars", "positive"), ("5 stars", "positive"),
  ("pos", "positive"), ("neg", "negative"), ("neu", "neutral")]

/-- Association-list lookup used for the label maps. -/
def lookupMap (m : List (String × String)) (k : String) : Option String :=
  (m.find? (fun p => p.1 == k)).map (fun p => p.2)

/-- Label normalisation step of `normalize_sentiment`: exact-key lookup in
`label_map`, then lowercased-key lookup, else the lowercased label itself. -/
def normalizeLabel (label : String) : String :=
  match lookupMap label_map label with
  | some v => v
  | none =>
    match lookupMap label_map (pyLower label) with
    | some v => v
    | none => pyLower label

/-- Label flip applied by `normalize_sentiment` when the model score is at
most `0.4` ("low confidence - might be opposite"). -/
def flipLabel (l : String) : String :=
  if l = "positive" then "negative"
  else if l = "negative" then "positive"
  else l

/-- Embeds `normalize_sentiment(score_map)` from `app/utils.py`, applied to a
sentiment dict with the given `label` and `score`.  Returns the re-assigned
`(label, score)` pair: the mapped label is kept when `score ≥ 0.6`, flipped
when `score ≤ 0.4`, and replaced by `"neutral"` in between. -/
def normalize_sentiment (label : String) (score : ℚ) : String × ℚ :=
  let label1 := normalizeLabel label
  (if 3/5 ≤ score then label1
   else if score ≤ 2/5 then flipLabel label1
   else "neutral", score)

/-- Embeds `NLPModel._convert_to_polarity(label, score)` from
`app/nlp_model.py`. -/
def convert_to_polarity (label : String) (score : ℚ) : ℚ :=
  let l := pyLower label
  if l = "positive" ∨ l = "pos" then score
  else if l = "negative" ∨ l = "neg" then -score
  else 0

/-- Sentiment fields of a stored article. -/
structure StoredSentiment where
  label : String
  score : ℚ
  polarity : ℚ
deriving DecidableEq

/-- Composition along the collector path: `NLPModel.analyze` attaches
`polarity = _convert_to_polarity(label, score)` to the sentiment dict
(`app/nlp_model.py`, no-adjustment branch), and
`NewsCollector._entry_to_article` then stores
`label, score = normalize_sentiment(sentiment)` together with
`sentiment.get("polarity", 0.0)` (`app/news_collector.py`). -/
def pipelineStoredSentiment (modelLabel : String) (modelScore : ℚ) : StoredSentiment :=
  let polarity := convert_to_polarity modelLabel modelScore
  let ls := normalize_sentiment modelLabel modelScore
  { label := ls.1, score := ls.2, polarity := polarity }

/-! ## Translation fallback chain

Embeds `MultilingualProcessor.translate_to_english` from
`app/language_processor.py`.  The HTML stripper (`clean_html`, which delegates
to BeautifulSoup) and the four translation providers (IndicTrans2,
deep_translator, googletrans, MyMemory) are external; they are parameters.
A provider is a function returning `none` for an exception or falsy output;
each step of the source accepts its output `r` only when
`len(r.strip()) > 10`, returning `r.strip()`. -/

/-- Ordered fallback chain: first step whose stripped output is longer than
10 characters wins; otherwise the chain continues; all failing yields
`none`.  Mirrors the four sequential provider blocks of
`translate_to_english`. -/
def translationChain : List (String → Option String) → String → Option String
  | [], _ => none
  | f :: fs, t =>
    match f t with
    | some r => if 10 < (pyStrip r).length then some (pyStrip r) else translationChain fs t
    | none => translationChain fs t

/-- Text handed to the providers: the HTML-cleaned text, truncated to 5000
characters (`if len(text) > 5000: text = text[:5000]`). -/
def translationInput (cleanHtml : String → String) (text : String) : String :=
  let c := cleanHtml text
  if 5000 < c.length then (⟨c.data.take 5000⟩ : String) else c

/-- Embeds `MultilingualProcessor.translate_to_english(text, source_lang)`
(`app/language_processor.py`).  The first guard is the source's
`if not text or source_lang == 'en': return text`; after HTML cleaning an
empty text returns `None`; then the fallback chain runs. -/
def translate_to_english (cleanHtml : String → String)
    (steps : List (String → Option String))
    (text : String) (source_lang : String) : Option String :=
  if text = "" ∨ source_lang = "en" then some text
  else
    let cleaned := cleanHtml text
    if cleaned = "" then none
    else translationChain steps (translationInput cleanHtml text)

/-! ## Language detection

Embeds `LanguageDetector.detect` / `LanguageDetector.detect_script` from
`ai_pipeline/language_detector.py` and
`MultilingualProcessor.detect_language` / `_detect_script` from
`app/language_processor.py`.  The statistical detector (`langdetect`) is
external and is a parameter: `LDProbs` models the outcome of
`detect_langs(text)` (an exception, or a probability-ordered list), and
`LDOutcome` models the processor's use of `detect(text)` (library
unavailable, exception raised, or a detected code). -/

/-- Python's `max(counts, key=counts.get)` over an insertion-ordered dict:
the first key attaining the maximal value.  The `("", 0)` seed is only
returned when the list is empty or all counts are zero, cases the callers
guard against. -/
def argmaxFirst (l : List (String × Nat)) : String × Nat :=
  l.foldl (fun b p => if b.2 < p.2 then p else b) ("", 0)

/-- Unicode ranges of `LanguageDetector.detect_script`
(`ai_pipeline/language_detector.py`), in source order. -/
def scripts_ranges : List (String × Nat × Nat) := [
  ("Devanagari", 0x0900, 0x097F), ("Bengali", 0x0980, 0x09FF),
  ("Gurmukhi", 0x0A00, 0x0A7F), ("Gujarati", 0x0A80, 0x0AFF),
  ("Odia", 0x0B00, 0x0B7F), ("Tamil", 0x0B80, 0x0BFF),
  ("Telugu", 0x0C00, 0x0C7F), ("Kannada", 0x0C80, 0x0CFF),
  ("Malayalam", 0x0D00, 0x0D7F), ("Arabic", 0x0600, 0x06FF),
  ("Latin", 0x0041, 0x007A)]

/-- Script a character is counted under: the first range containing its code
point (the source's inner loop `break`s at the first match). -/
def charRangeScript (c : Char) : Option String :=
  (scripts_ranges.find? (fun r => r.2.1 ≤ c.toNat && c.toNat ≤ r.2.2)).map (fun r => r.1)

/-- Embeds `LanguageDetector.detect_script(text)`: per-range character counts,
then the first script with the maximal count, or `"unknown"` when no
character fell in any range (or the text is empty). -/
def detector_detect_script (text : String) : String :=
  if text = "" then "unknown"
  else
    let counts := scripts_ranges.map
      (fun r => (r.1, text.data.countP (fun c => charRangeScript c == some r.1)))
    if 0 < (argmaxFirst counts).2 then (argmaxFirst counts).1 else "unknown"

/-- `LANGUAGE_SCRIPTS` of `ai_pipeline/language_detector.py`. -/
def LANGUAGE_SCRIPTS : List (String × String) := [
  ("en", "Latin"), ("hi", "Devanagari"), ("kn", "Kannada"), ("ta", "Tamil"),
  ("te", "Telugu"), ("ml", "Malayalam"), ("bn", "Bengali"), ("gu", "Gujarati"),
  ("pa", "Gurmukhi"), ("mr", "Devanagari"), ("or", "Odia"), ("as", "Bengali"),
  ("ur", "Arabic")]

/-- Outcome of the external `langdetect.detect_langs(text)` call: an
exception, or the (probability-sorted) list of `(code, prob)` candidates. -/
inductive LDProbs where
  | failure
  | probs (l : List (String × ℚ))

/-- Result triple of the detectors. -/
structure DetectResult where
  code : String
  script : String
  confidence : ℚ

/-- Embeds `LanguageDetector.detect(text)` from
`ai_pipeline/language_detector.py`: texts whose stripped length is below 10
short-circuit to `{unknown, unknown, 0.0}`; otherwise the statistical
detector's top candidate provides code and confidence, with the script from
`LANGUAGE_SCRIPTS` or, failing that, `detect_script`; an exception or an
empty candidate list falls back to `{unknown, detect_script(text), 0.0}`. -/
def LanguageDetector_detect (ld : LDProbs) (text : String) : DetectResult :=
  if text = "" ∨ (pyStrip text).length < 10 then
    { code := "unknown", script := "unknown", confidence := 0 }
  else
    match ld with
    | LDProbs.failure =>
      { code := "unknown", script := detector_detect_script text, confidence := 0 }
    | LDProbs.probs [] =>
      { code := "unknown", script := detector_detect_script text, confidence := 0 }
    | LDProbs.probs ((c, p) :: _) =>
      { code := c,
        script := match lookupMap LANGUAGE_SCRIPTS c with
          | some s => s
          | none => detector_detect_script text,
        confidence := p }

/-- `SCRIPT_PATTERNS` of `app/language_processor.py`: per-script character
inventories used by `MultilingualProcessor._detect_script`, in source order,
transcribed verbatim from the source file.  Entries are strings because a
few source entries (nukta combinations) are two code points wide; Python
compares each single character of the text against the entries, so those
entries can never match, and neither can they here. -/
def SCRIPT_PATTERNS : List (String × List String) := [
  ("Devanagari", ["ऀ", "ँ", "ं", "ः", "अ", "आ", "इ", "ई", "उ", "ऊ", "ऋ", "ए", "ऐ", "ओ", "औ", "क", "ख", "ग", "घ", "ङ", "च", "छ", "ज", "झ", "ञ", "ट", "ठ", "ड", "ढ", "ण", "त", "थ", "द", "ध", "न", "प", "फ", "ब", "भ", "म", "य", "र", "ल", "व", "श", "ष", "स", "ह"]),
  ("Kannada", ["ಅ", "ಆ", "ಇ", "ಈ", "ಉ", "ಊ", "ಋ", "ೠ", "ಎ", "ಏ", "ಐ", "ಒ", "ಓ", "ಔ", "ಕ", "ಖ", "ಗ", "ಘ", "ಙ", "ಚ", "ಛ", "ಜ", "ಝ", "ಞ", "ಟ", "ಠ", "ಡ", "ಢ", "ಣ", "ತ", "ಥ", "ದ", "ಧ", "ನ", "ಪ", "ಫ", "ಬ", "ಭ", "ಮ", "ಯ", "ರ", "ಲ", "ವ", "ಶ", "ಷ", "ಸ", "ಹ", "ಳ"]),
  ("Tamil", ["அ", "ஆ", "இ", "ஈ", "உ", "ஊ", "எ", "ஏ", "ஐ", "ஒ", "ஓ", "ஔ", "க", "ங", "ச", "ஜ", "ஞ", "ட", "ண", "த", "ந", "ன", "ப", "ம", "ய", "ர", "ற", "ல", "ள", "ழ", "வ", "ஶ", "ஷ", "ஸ", "ஹ"]),
  ("Telugu", ["అ", "ఆ", "ఇ", "ఈ", "ఉ", "ఊ", "ఋ", "ౠ", "ఎ", "ఏ", "ఐ", "ఒ", "ఓ", "ఔ", "క", "ఖ", "గ", "ఘ", "ఙ", "చ", "ఛ", "జ", "ఝ", "ఞ", "ట", "ఠ", "డ", "ఢ", "ణ", "త", "థ", "ద", "ధ", "న", "ప", "ఫ", "బ", "భ", "మ", "య", "ర", "ఱ", "ల", "ళ", "వ", "శ", "ష", "స", "హ"]),
  ("Bengali", ["অ", "আ", "ই", "ঈ", "উ", "ঊ", "ঋ", "এ", "ঐ", "ও", "ঔ", "ক", "খ", "গ", "ঘ", "ঙ", "চ", "ছ", "জ", "ঝ", "ঞ", "ট", "ঠ", "ড", "ঢ", "ণ", "ত", "থ", "দ", "ধ", "ন", "প", "ফ", "ব", "ভ", "ম", "য", "র", "ল", "শ", "ষ", "স", "হ", "ড়", "ঢ়", "য়"]),
  ("Gujarati", ["અ", "આ", "ઇ", "ઈ", "ઉ", "ઊ", "ઋ", "એ", "ઐ", "ઓ", "ઔ", "ક", "ખ", "ગ", "ઘ", "ઙ", "ચ", "છ", "જ", "ઝ", "ઞ", "ટ", "ઠ", "ડ", "ઢ", "ણ", "ત", "થ", "દ", "ધ", "ન", "પ", "ફ", "બ", "ભ", "મ", "ય", "ર", "લ", "વ", "શ", "ષ", "સ", "હ", "ળ"]),
  ("Malayalam", ["അ", "ആ", "ഇ", "ഈ", "ഉ", "ഊ", "ഋ", "ൠ", "ഌ", "ൡ", "എ", "ഏ", "ഐ", "ഒ", "ഓ", "ഔ", "ക", "ഖ", "ഗ", "ഘ", "ങ", "ച", "ഛ", "ജ", "ഝ", "ഞ", "ട", "ഠ", "ഡ", "ഢ", "ണ", "ത", "ഥ", "ദ", "ധ", "ന", "പ", "ഫ", "ബ", "ഭ", "മ", "യ", "ര", "ല", "വ", "ശ", "ഷ", "സ", "ഹ", "ള", "ഴ", "റ"]),
  ("Odia", ["ଅ", "ଆ", "ଇ", "ଈ", "ଉ", "ଊ", "ଋ", "ୠ", "ଌ", "ୡ", "ଏ", "ଐ", "ଓ", "ଔ", "କ", "ଖ", "ଗ", "ଘ", "ଙ", "ଚ", "ଛ", "ଜ", "ଝ", "ଞ", "ଟ", "ଠ", "ଡ", "ଢ", "ଣ", "ତ", "ଥ", "ଦ", "ଧ", "ନ", "ପ", "ଫ", "ବ", "ଭ", "ମ", "ଯ", "ର", "ଲ", "ଳ", "ଵ", "ଶ", "ଷ", "ସ", "ହ", "ଡ଼", "ଢ଼", "ୟ"]),
  ("Gurmukhi", ["ਅ", "ਆ", "ਇ", "ਈ", "ਉ", "ਊ", "ਏ", "ਐ", "ਓ", "ਔ", "ਕ", "ਖ", "ਗ", "ਘ", "ਙ", "ਚ", "ਛ", "ਜ", "ਝ", "ਞ", "ਟ", "ਠ", "ਡ", "ਢ", "ਣ", "ਤ", "ਥ", "ਦ", "ਧ", "ਨ", "ਪ", "ਫ", "ਬ", "ਭ", "ਮ", "ਯ", "ਰ", "ਲ", "ਲ਼", "ਵ", "ਸ਼", "ਸ", "ਹ"])]

/-- Embeds `MultilingualProcessor._detect_script(text)`
(`app/language_processor.py`): per-script counts of characters occurring in
each inventory, keeping only positive counts; no count at all defaults to
`"Latin"`; otherwise the first script with the maximal count wins. -/
def processor_detect_script (text : String) : Option String :=
  if text = "" then none
  else
    let counts := (SCRIPT_PATTERNS.map
      (fun p => (p.1, text.data.countP (fun c => p.2.contains (String.singleton c))))).filter
        (fun q => 0 < q.2)
    if counts.isEmpty then some "Latin"
    else some (argmaxFirst counts).1

/-- `script_to_lang` of `MultilingualProcessor.detect_language`: Devanagari is
deliberately ambiguous (`None`, langdetect must pick Hindi or Marathi). -/
def script_to_lang : List (String × Option String) := [
  ("Devanagari", none), ("Kannada", some "kn"), ("Tamil", some "ta"),
  ("Telugu", some "te"), ("Bengali", some "bn"), ("Gujarati", some "gu"),
  ("Malayalam", some "ml"), ("Odia", some "or"), ("Gurmukhi", some "pa"),
  ("Latin", some "en")]

/-- Python `script_to_lang.get(script, 'unknown')`: the mapped value (which
may itself be `None`) when the key is present, else `'unknown'`. -/
def scriptToLangGet (script : String) : Option String :=
  match (script_to_lang.find? (fun p => p.1 == script)).map (fun p => p.2) with
  | some v => v
  | none => some "unknown"

/-- Codes of `langdetect_map` in `detect_language` (an identity mapping). -/
def langdetect_codes : List String :=
  ["hi", "kn", "ta", "te", "bn", "gu", "mr", "pa", "ml", "or", "ur", "en"]

/-- `INDIAN_LANGUAGES` of `app/language_processor.py`. -/
def INDIAN_LANGUAGES : List (String × String) := [
  ("hi", "Hindi"), ("kn", "Kannada"), ("ta", "Tamil"), ("te", "Telugu"),
  ("bn", "Bengali"), ("gu", "Gujarati"), ("mr", "Marathi"), ("pa", "Punjabi"),
  ("ml", "Malayalam"), ("or", "Odia"), ("ur", "Urdu"), ("en", "English")]

/-- Outcome of the processor's use of the external `langdetect` library:
never loaded (`_ensure_detector` failed, the whole block is skipped),
`detect(text)` raised (the `except` branch runs), or a detected code. -/
inductive LDOutcome where
  | unavailable
  | failed
  | detected (code : String)

/-- Confidence before langdetect refinement:
`0.9 if lang_code and lang_code != 'unknown' else 0.5`. -/
def processorBaseConfidence (langCode0 : Option String) : ℚ :=
  match langCode0 with
  | some c => if c ≠ "unknown" then 9/10 else 1/2
  | none => 1/2

/-- Code/confidence refinement by the langdetect block of `detect_language`
(`app/language_processor.py`): for Devanagari the statistical result always
wins with confidence 0.90; agreement raises confidence to 0.95; an ambiguous
script-based result is replaced with confidence 0.75; on an exception,
Devanagari with no code falls back to Hindi at 0.60. -/
def detect_language_core (ld : LDOutcome) (script : String)
    (langCode0 : Option String) (conf0 : Rat) : Option String × ℚ :=
  match ld with
  | LDOutcome.unavailable => (langCode0, conf0)
  | LDOutcome.failed =>
    if script = "Devanagari" ∧ langCode0 = none then (some "hi", 3/5)
    else (langCode0, conf0)
  | LDOutcome.detected c =>
    if langdetect_codes.contains c then
      if script = "Devanagari" then (some c, 9/10)
      else if langCode0 = some c then (langCode0, 19/20)
      else if langCode0 = none ∨ langCode0 = some "unknown" then (some c, 3/4)
      else (langCode0, conf0)
    else (langCode0, conf0)

/-- Result of `MultilingualProcessor.detect_language`; `code` is
`Option String` because the Devanagari path can return `None` when the
statistical detector is unavailable. -/
structure ProcDetectResult where
  code : Option String
  name : String
  script : String
  confidence : ℚ

/-- Embeds `MultilingualProcessor.detect_language(text)`
(`app/language_processor.py`).  Note the short-text guard is
`len(text.strip()) < 3` — not 10. -/
def detect_language (ld : LDOutcome) (text : String) : ProcDetectResult :=
  if text = "" ∨ (pyStrip text).length < 3 then
    { code := some "unknown", name := "Unknown", script := "Unknown", confidence := 0 }
  else
    let script := match processor_detect_script text with
      | some s => s
      | none => ""
    let langCode0 := scriptToLangGet script
    let cc := detect_language_core ld script langCode0 (processorBaseConfidence langCode0)
    { code := cc.1,
      name := match cc.1 with
        | some c =>
          (match lookupMap INDIAN_LANGUAGES c with
           | some n => n
           | none => "Unknown")
        | none => "Unknown",
      script := if script = "" then "Unknown" else script,
      confidence := cc.2 }

/-! ## Content classification

Embeds `is_international_news`, `classify_content`, `_determine_sub_category`
and `_should_show_to_pib` from `app/content_classifier.py`.  The six
keyword-group lists of `is_international_news` and the inline marker lists are
transcribed verbatim from the source; the large per-language category keyword
dictionaries (`GOVERNMENT_KEYWORDS`, `POLITICAL_KEYWORDS`, …) are static data
abstracted as a `KeywordTables` parameter (a function from language code to
keyword list per category, Python's `.get(lang, [])`); the theorems hold for
every table. -/

def bangladesh_keywords : List String := [
  "bangladesh", "dhaka", "sheikh hasina", "khaleda zia",
  "rohingya", "cox\x27s bazar", "chittagong", "sylhet",
  "awami league", "bnp bangladesh", "বাংলাদেশ", "ঢাকা",
  "শেখ হাসিনা", "খালিদা জিয়া", "রোহিঙ্গ্যা"]

def pakistan_keywords : List String := [
  "pakistan", "islamabad", "imran khan", "nawaz sharif",
  "shehbaz sharif", "karachi", "lahore", "peshawar",
  "পাকিস্তান", "ইসলামাবাদ"]

def sri_lanka_keywords : List String := [
  "sri lanka", "colombo", "ranil", "gotabaya",
  "mahinda rajapaksa", "শ্রীলংকা", "কলম্বো"]

def other_neighbors : List String := [
  "nepal", "kathmandu", "bhutan", "thimphu",
  "myanmar", "yangon", "afghanistan", "kabul",
  "taliban", "নেপাল", "ভুটান", "মায়ানমার"]

def foreign_powers : List String := [
  "russia ukraine", "israel palestine", "gaza", "west bank",
  "china taiwan", "north korea", "iran nuclear", "syria war",
  "ukraine", "zelensky", "putin", "vladimir putin",
  "israel", "hamas", "netanyahu", "gaza strip",
  "রাশিয়া ইউক্রেন", "ইজরায়েল ফিলিস্তিন"]

def foreign_leaders : List String := [
  "trump", "donald trump", "biden", "joe biden",
  "xi jinping", "erdogan", "macron", "justin trudeau",
  "boris johnson", "kim jong", "blinken", "anthony blinken"]

/-- Python `any(k in combined for k in kws)`. -/
def anyIn (kws : List String) (combined : String) : Bool :=
  kws.any (fun k => pyIn k combined)

/-- One keyword group of `is_international_news`: the first keyword occurring
in the text yields the rejection reason, unless the group's India-exception
holds, in which case that keyword is skipped (`continue`). -/
def checkGroup (combined tag : String) (kws : List String) (exc : Bool) : Option String :=
  kws.findSome? (fun kw =>
    if pyIn kw combined then (if exc then none else some (tag ++ kw)) else none)

/-- Embeds `is_international_news(text, title)`
(`app/content_classifier.py`): six keyword groups checked in order, each with
its own India-government exception condition. -/
def is_international_news (text title : String) : Bool × String :=
  let combined := pyLower (title ++ " " ++ text)
  let bangladeshExc :=
    anyIn ["india bangladesh", "india-bangladesh", "indian government", "mea",
      "external affairs", "भारत बांग्लादेश"] combined &&
    anyIn ["ministry", "government scheme", "pm modi", "indian pm",
      "प्रधानमंत्री", "मंत्रालय"] combined
  let pakistanExc :=
    anyIn ["india pakistan", "india-pakistan", "indian government", "mea"] combined &&
    anyIn ["ministry", "government", "pm modi"] combined
  let sriLankaExc :=
    anyIn ["india sri lanka", "india-sri lanka", "indian government"] combined &&
    anyIn ["ministry", "government scheme"] combined
  let neighborExc :=
    pyIn "india" combined && anyIn ["ministry", "government", "pm modi"] combined
  let powersExc :=
    anyIn ["india condemns", "india supports", "india\x27s stand",
      "indian government", "mea statement"] combined
  let leadersExc :=
    anyIn ["pm modi", "indian pm", "india visit", "bilateral", "भारत दौरा"] combined
  let r :=
    checkGroup combined "Bangladesh news: " bangladesh_keywords bangladeshExc <|>
    checkGroup combined "Pakistan news: " pakistan_keywords pakistanExc <|>
    checkGroup combined "Sri Lanka news: " sri_lanka_keywords sriLankaExc <|>
    checkGroup combined "Neighboring country news: " other_neighbors neighborExc <|>
    checkGroup combined "International conflict: " foreign_powers powersExc <|>
    checkGroup combined "Foreign leader: " foreign_leaders leadersExc
  match r with
  | some reason => (true, reason)
  | none => (false, "")

/-- Per-language keyword tables of `app/content_classifier.py`
(`GOVERNMENT_KEYWORDS` … `BUSINESS_KEYWORDS`), abstracted as functions from
language code to keyword list (Python's `TABLE.get(lang, [])`). -/
structure KeywordTables where
  government : String → List String
  political : String → List String
  entertainment : String → List String
  sports : String → List String
  crime : String → List String
  business : String → List String

/-- Keyword tables with every list empty. -/
def emptyKeywordTables : KeywordTables :=
  { government := fun _ => [], political := fun _ => [],
    entertainment := fun _ => [], sports := fun _ => [],
    crime := fun _ => [], business := fun _ => [] }

/-- Official-source indicators granting the +20 Government boost. -/
def officialSourceIndicators : List String :=
  [" pib", "press information bureau", "pib.gov.in", "ministry of",
   "government of india", "भारत सरकार"]

/-- Clear government indicators granting the +10 Government boost. -/
def governmentIndicators : List String :=
  ["government scheme", "सरकारी योजना", "yojana", "योजना", "scheme", "pm ",
   "pradhan mantri", "प्रधानमंत्री", "infrastructure", "industrial park"]

/-- Languages with their own keyword dictionaries in `classify_content`. -/
def supported_langs : List String :=
  ["en", "hi", "kn", "ta", "te", "bn", "ml", "mr", "gu", "pa", "or", "as"]

/-- Count of keywords from `kws` occurring (lowercased) in the combined
text. -/
def kwCount (kws : List String) (combined : String) : Nat :=
  kws.countP (fun k => pyIn (pyLower k) combined)

/-- Combined lowercased text of `classify_content` and
`is_international_news`: `f"{title} {text}".lower()`. -/
def classifyCombined (text title : String) : String :=
  pyLower (title ++ " " ++ text)

/-- Language whose dictionaries are used:
`detected_lang if detected_lang in [...] else "en"`. -/
def classifyLang (lang : String) : String :=
  if supported_langs.contains lang then lang else "en"

/-- Category scores of `classify_content`, in the source dict's insertion
order: Government (with its two priority boosts), Political, Entertainment,
Sports (2 points per keyword), Crime, Business (1 point per keyword). -/
def categoryScores (kt : KeywordTables) (combined lang : String) : List (String × Nat) :=
  [("Government",
      (if anyIn officialSourceIndicators combined then 20 else 0) +
      (if anyIn governmentIndicators combined then 10 else 0) +
      2 * kwCount (kt.government lang) combined),
   ("Political", 2 * kwCount (kt.political lang) combined),
   ("Entertainment", 2 * kwCount (kt.entertainment lang) combined),
   ("Sports", 2 * kwCount (kt.sports lang) combined),
   ("Crime", kwCount (kt.crime lang) combined),
   ("Business", kwCount (kt.business lang) combined)]

/-- `max(scores.values())`. -/
def categoryMaxScore (kt : KeywordTables) (combined lang : String) : Nat :=
  (categoryScores kt combined lang).foldl (fun m p => max m p.2) 0

/-- `max(scores, key=scores.get)`: the first category attaining the maximal
score (only used when the maximum is positive). -/
def classifyPrimary (kt : KeywordTables) (combined lang : String) : String :=
  if categoryMaxScore kt combined lang = 0 then "Other"
  else (argmaxFirst (categoryScores kt combined lang)).1

/-- `confidence = min(max_score / 10.0, 1.0)` (0 when no keyword matched). -/
def classifyConfidence (kt : KeywordTables) (combined lang : String) : ℚ :=
  if categoryMaxScore kt combined lang = 0 then 0
  else min ((categoryMaxScore kt combined lang : ℚ) / 10) 1

/-- `matched_keywords` accumulation of `classify_content`, in source order
(boost tags, then the matching keywords of each table). -/
def matchedKeywords (kt : KeywordTables) (combined lang : String) : List String :=
  (if anyIn officialSourceIndicators combined then ["official_source"] else []) ++
  (if anyIn governmentIndicators combined then ["government_indicator"] else []) ++
  (kt.government lang).filter (fun k => pyIn (pyLower k) combined) ++
  (kt.political lang).filter (fun k => pyIn (pyLower k) combined) ++
  (kt.entertainment lang).filter (fun k => pyIn (pyLower k) combined) ++
  (kt.sports lang).filter (fun k => pyIn (pyLower k) combined) ++
  (kt.crime lang).filter (fun k => pyIn (pyLower k) combined) ++
  (kt.business lang).filter (fun k => pyIn (pyLower k) combined)

/-- Embeds `_determine_sub_category(category, text, lang)` from
`app/content_classifier.py` (the `lang` parameter is unused there too). -/
def determine_sub_category (category text lang : String) : String :=
  if category = "Government" then
    if anyIn ["scheme", "योजना", "yojana"] text then "Scheme Implementation"
    else if anyIn ["policy", "नीति", "announcement", "घोषणा"] text then "Policy Announcement"
    else if anyIn ["delay", "देरी", "grievance", "शिकायत", "complaint"] text then "Public Grievance"
    else if anyIn ["project", "परियोजना", "infrastructure", "बुनियादी"] text then "Infrastructure Project"
    else if anyIn ["fake", "misinformation", "false", "गलत"] text then "Misinformation Alert"
    else "Government Services"
  else if category = "Political" then
    if anyIn ["election", "चुनाव", "voting", "मतदान"] text then "Election Coverage"
    else if anyIn ["rally", "रैली", "campaign", "प्रचार"] text then "Campaign Activity"
    else if anyIn ["criticize", "आलोचना", "slam", "attack", "हमला"] text then "Party Criticism"
    else if anyIn ["alliance", "गठबंधन", "coalition"] text then "Coalition Politics"
    else "Party Activity"
  else if category = "Entertainment" then
    if anyIn ["movie", "film", "फिल्म", "cinema"] text then "Movies"
    else if anyIn ["tv", "web series", "ott"] text then "TV/OTT"
    else if anyIn ["celebrity", "actor", "actress", "अभिनेता"] text then "Celebrity News"
    else "Entertainment"
  else if category = "Sports" then
    if anyIn ["cricket", "क्रिकेट"] text then "Cricket"
    else if anyIn ["football", "फुटबॉल"] text then "Football"
    else if anyIn ["olympics", "ओलंपिक", "medal", "पदक"] text then "Olympics/International"
    else "Sports"
  else if category = "Crime" then
    if anyIn ["accident", "दुर्घटना"] text then "Accident"
    else if anyIn ["murder", "हत्या", "crime", "अपराध"] text then "Crime"
    else "Crime/Accident"
  else if category = "Business" then
    if anyIn ["startup", "स्टार्टअप"] text then "Startup"
    else if anyIn ["stock", "share", "शेयर"] text then "Stock Market"
    else "Corporate"
  else category

/-- `sub_category` produced by `classify_content`. -/
def classifySub (kt : KeywordTables) (combined lang : String) : String :=
  if categoryMaxScore kt combined lang = 0 then "Uncategorized"
  else determine_sub_category (classifyPrimary kt combined lang) combined lang

/-- Government-response markers of the Political branch of
`_should_show_to_pib`. -/
def gov_response_keywords : List String :=
  ["government response", "ministry statement", "official response",
   "सरकार प्रतिक्रिया", "मंत्रालय बयान"]

/-- Government sports-scheme markers of the Sports branch. -/
def sports_exception_keywords : List String :=
  ["khelo india", "खेलो इंडिया", "sports ministry", "खेल मंत्रालय"]

/-- Government-response markers of the Crime branch. -/
def crime_response_keywords : List String :=
  ["minister announces", "government compensation", "official statement",
   "मंत्री घोषणा", "सरकार मुआवजा", "आधिकारिक बयान"]

/-- Government-regulation markers of the Business branch. -/
def business_regulation_keywords : List String :=
  ["government regulation", "ministry approval", "government policy",
   "सरकार नियमन", "मंत्रालय अनुमोदन"]

/-- Embeds `_should_show_to_pib(category, sub_category, text, lang)` from
`app/content_classifier.py`: the PIB decision table. -/
def should_show_to_pib (category sub_category text lang : String) : Bool × Option String :=
  if category = "Government" then (true, none)
  else if category = "Political" then
    (if anyIn gov_response_keywords text then (true, none)
     else (false, some ("Political content: " ++ sub_category)))
  else if category = "Entertainment" then
    (false, some ("Entertainment content: " ++ sub_category))
  else if category = "Sports" then
    (if anyIn sports_exception_keywords text then (true, none)
     else (false, some ("Sports content: " ++ sub_category)))
  else if category = "Crime" then
    (if anyIn crime_response_keywords text then (true, none)
     else (false, some ("Crime/Accident: " ++ sub_category)))
  else if category = "Business" then
    (if anyIn business_regulation_keywords text then (true, none)
     else (false, some ("Business content: " ++ sub_category)))
  else (false, some ("Uncategorized: " ++ sub_category))

/-- Result of `classify_content`. -/
structure ClassResult where
  primary_category : String
  sub_category : String
  confidence : ℚ
  matched_keywords : List String
  should_show : Bool
  filter_reason : Option String

/-- Embeds `classify_content(text, title, detected_lang)` from
`app/content_classifier.py`: empty input short-circuits to `Other`;
international news short-circuits to `International` with confidence 1.0 and
`should_show = False`; otherwise keyword scoring decides the category,
confidence and the PIB decision table's verdict. -/
def classify_content (kt : KeywordTables) (text title lang : String) : ClassResult :=
  if text = "" ∧ title = "" then
    { primary_category := "Other", sub_category := "Unknown", confidence := 0,
      matched_keywords := [], should_show := false,
      filter_reason := some "No content to classify" }
  else
    let intl := is_international_news text title
    if intl.1 then
      { primary_category := "International", sub_category := "Foreign News",
        confidence := 1, matched_keywords := [intl.2], should_show := false,
        filter_reason := some ("International news: " ++ intl.2) }
    else
      let combined := classifyCombined text title
      let lang2 := classifyLang lang
      let primary := classifyPrimary kt combined lang2
      let sub := classifySub kt combined lang2
      let ss := should_show_to_pib primary sub combined lang2
      { primary_category := primary, sub_category := sub,
        confidence := classifyConfidence kt combined lang2,
        matched_keywords := (matchedKeywords kt combined lang2).take 10,
        should_show := ss.1, filter_reason := ss.2 }

/-! ## Central schemes database

Embeds `find_schemes_in_text` from `app/schemes_database.py`.  The source's
`CENTRAL_SCHEMES` table has 209 entries; the matching function is embedded
over an arbitrary scheme list (the theorems hold for every table), and the
first two entries of the source table are transcribed verbatim for concrete
evaluation. -/

/-- One entry of `CENTRAL_SCHEMES` (`description` omitted: never read by the
matching code). -/
structure Scheme where
  name : String
  ministry : String
  tags : List String
  regional_names : List (String × List String)
deriving DecidableEq

def pmKisanScheme : Scheme :=
  { name := "PM-KISAN (Pradhan Mantri Kisan Samman Nidhi)",
    ministry := "Ministry Of Agriculture and Farmers Welfare",
    tags := ["Agricultural Inputs", "Agriculture", "Farmers", "Income Support", "Kisan"],
    regional_names := [
    ("hi", ["पीएम किसान", "प्रधानमंत्री किसान सम्मान निधि", "किसान सम्मान निधि"]),
    ("kn", ["ಪಿಎಂ ಕಿಸಾನ್", "ಪ್ರಧಾನಮಂತ್ರಿ ಕಿಸಾನ್ ಸಮ್ಮಾನ್ ನಿಧಿ"]),
    ("ta", ["பிஎம் கிசான்", "பிரதமர் கிசான் சம்மான் நிதி"]),
    ("te", ["పిఎమ్ కిసాన్", "ప్రధానమంత్రి కిసాన్ సమ్మాన్ నిధి"]),
    ("mr", ["पीएम किसान", "प्रधानमंत्री किसान सन्मान निधी"]),
    ("gu", ["પીએમ કિસાન", "પ્રધાનમંત્રી કિસાન સન્માન નિધિ"]),
    ("bn", ["পিএম কিষাণ", "প্রধানমন্ত্রী কিষাণ সম্মান নিধি"]),
    ("pa", ["ਪੀਐਮ ਕਿਸਾਨ", "ਪ੍ਰਧਾਨ ਮੰਤਰੀ ਕਿਸਾਨ ਸਮਾਨ ਨਿਧੀ"]),
    ("ml", ["പിഎം കിസാൻ", "പ്രധാനമന്ത്രി കിസാൻ സമ്മാൻ നിധി"]),
    ("or", ["ପିଏମ୍ କିସାନ", "ପ୍ରଧାନମନ୍ତ୍ରୀ କିସାନ ସମ୍ମାନ ନିଧି"]),
    ("as", ["পিএম কিষাণ", "প্ৰধানমন্ত্ৰী কিষাণ সন্মান নিধি"])] }

def ayushmanScheme : Scheme :=
  { name := "Ayushman Bharat - PM-JAY",
    ministry := "Ministry Of Health & Family Welfare",
    tags := ["Health", "Insurance"],
    regional_names := [
    ("hi", ["आयुष्मान भारत", "पीएम जय", "आयुष्मान योजना"]),
    ("kn", ["ಆಯುಷ್ಮಾನ್ ಭಾರತ್", "ಪಿಎಂ ಜೆಎವೈ"]),
    ("ta", ["ஆயுஷ்மான் பாரத்", "பிஎம் ஜே"]),
    ("te", ["ఆయుష్మాన్ భారత్", "పిఎమ్ జేఏవై"]),
    ("mr", ["आयुष्मान भारत", "पीएम जय"]),
    ("gu", ["આયુષ્માન ભારત", "પીએમ જય"]),
    ("bn", ["আয়ুষ্মান ভারত", "পিএম জে"]),
    ("pa", ["ਆਯੁਸ਼ਮਾਨ ਭਾਰਤ", "ਪੀਐਮ ਜੇ"]),
    ("ml", ["ആയുഷ്മാൻ ഭാരത്", "പിഎം ജെ"]),
    ("or", ["ଆୟୁଷ୍ମାନ ଭାରତ", "ପିଏମ୍ ଜେ"]),
    ("as", ["আয়ুষ্মান ভাৰত", "পিএম জে"])] }

/-- Initial fragment (first two entries, transcribed verbatim) of the
source's `CENTRAL_SCHEMES` list. -/
def CENTRAL_SCHEMES_frag : List Scheme := [pmKisanScheme, ayushmanScheme]

/-- Words of the English scheme name longer than 4 characters:
`[w for w in scheme["name"].lower().split() if len(w) > 4]`. -/
def nameWords (s : Scheme) : List String :=
  (pySplit (pyLower s.name)).filter (fun w => 4 < w.length)

/-- Whether a scheme matches the lowercased text, by the three checks of
`find_schemes_in_text` in source order: full English name as substring; any
name word longer than 4 characters as substring; any regional-language
variant as substring.  (The source checks the detected language's variants
first and then all languages; with the `seen` guard the two loops add the
scheme at most once, so only the disjunction is observable, and the
`detected_language` argument has no observable effect.) -/
def schemeHit (tl : String) (s : Scheme) : Bool :=
  pyIn (pyLower s.name) tl ||
  (nameWords s).any (fun w => pyIn w tl) ||
  s.regional_names.any (fun p => p.2.any (fun rn => pyIn (pyLower rn) tl))

/-- One iteration of `find_schemes_in_text`'s loop: append the scheme (and
record its name in `seen`) when it matches and its name is unseen. -/
def schemeStep (tl : String) (acc : List Scheme × List String) (s : Scheme) :
    List Scheme × List String :=
  if schemeHit tl s && !(acc.2.contains s.name) then
    (acc.1 ++ [s], acc.2 ++ [s.name])
  else acc

/-- Embeds `find_schemes_in_text(text, detected_language)` from
`app/schemes_database.py`, over an arbitrary scheme table `db`. -/
def find_schemes_in_text (db : List Scheme) (text : String) (lang : Option String) :
    List Scheme :=
  if text = "" then []
  else (db.foldl (schemeStep (pyLower text)) ([], [])).1

/-- Scheme-boost step of `NewsCollector._entry_to_article`
(`app/news_collector.py`): detected scheme names are merged into
`goi_schemes` (`list(set(...))`, modelled as `dedup` of the concatenation —
Python's set iteration order is unspecified, membership is what matters), and
a previously non-GoI article is elevated to `is_goi = True` with
`relevance_score = max(relevance_score, 0.8)`. -/
def schemeBoost (db : List Scheme) (full_text : String) (lang : Option String)
    (goi_schemes : List String) (is_goi : Bool) (relevance_score : ℚ) :
    List String × Bool × ℚ :=
  let detected := find_schemes_in_text db full_text lang
  if detected.isEmpty then (goi_schemes, is_goi, relevance_score)
  else
    let scheme_names := detected.map Scheme.name
    let gs := (goi_schemes ++ scheme_names).dedup
    if !is_goi then (gs, true, max relevance_score (4/5))
    else (gs, is_goi, relevance_score)

/-! ## Confidence scorer

Embeds `calculate_confidence_score` and its helpers from
`app/confidence_scorer.py`.  All scores are in integer hundredths (the
source's float constants are exact multiples of 0.05, so `0.25` is `25`,
the `[0.0, 1.0]` clamp is `[0, 100]`, the level thresholds `0.80` / `0.50`
are `80` / `50`, and `round(final_score, 2)` is the identity).  The English
GOI keyword list (`GOI_KEYWORDS["en"]` from `app/goi_filter.py`, a module
whose data is not among the sources) and the scheme table are parameters;
the theorems hold for every choice.  `published_at` is modelled by the age
in days that the source computes from the clock (`none` = missing or
unparseable date). -/

def TRUSTED_GOV_SOURCES : List String := [
  "pib.gov.in", "mygov.in", "india.gov.in", "pmindia.gov.in",
  "pmjay.gov.in", "pmkisan.gov.in", "swachhbharat.mygov.in", "digitalindia.gov.in",
  "makeinindia.com", "startupindia.gov.in", "uidai.gov.in", "epfindia.gov.in",
  "pfrda.org.in"]

def MINISTRY_KEYWORDS : List String := [
  "ministry", "mantralaya", "मंत्रालय", "ಮಂತ್ರಾಲಯ",
  "minister", "mantri", "मंत्री", "ಮಂತ್ರಿ",
  "department", "vibhag", "विभाग", "ವಿಭಾಗ"]

def ENTERTAINMENT_KEYWORDS : List String := [
  "bollywood", "बॉलीवुड", "cricket", "ipl",
  "match", "film", "फिल्म", "actor",
  "अभिनेता", "actress", "movie", "सिनेमा",
  "celebrity", "सेलिब्रिटी", "sports", "खेल",
  "ಕ್ರೀಡೆ", "championship", "tournament"]

def TRIBUTE_KEYWORDS : List String := [
  "paid tribute", "श्रद्धांजलि", "condolence", "शोक",
  "death anniversary", "पुण्यतिथि", "remembering", "स्मरण",
  "demise", "निधन", "passed away", "गुजर गए"]

def STRONG_EXCLUSION_KEYWORDS : List String := [
  "bangladesh", "dhaka", "pakistan", "islamabad",
  "china", "beijing", "nepal", "kathmandu",
  "sri lanka", "colombo", "afghanistan", "kabul"]

/-- Input article of `calculate_confidence_score`; numeric fields are in
hundredths, `none` models a missing key / `None` value. -/
structure ScoreArticle where
  title : String
  summary : String
  source : String
  classification_confidence : Option Int
  is_goi : Bool
  sentiment_score : Option Int
  goi_schemes : List String
  content_category : Option String
  language : Option String
  published_days_old : Option Int
deriving DecidableEq

/-- Embeds `count_government_keywords(title, summary)`: occurrences of
English GOI keywords (lowercased) in the lowercased `title + " " + summary`.
The keyword list itself is the abstracted `goiKw` parameter. -/
def count_government_keywords (goiKw : List String) (title summary : String) : Nat :=
  goiKw.countP (fun k => pyIn (pyLower k) (pyLower (title ++ " " ++ summary)))

/-- Embeds `detect_schemes(title, summary)`:
`find_schemes_in_text(title + " " + summary)` with no language argument. -/
def detect_schemes (db : List Scheme) (title summary : String) : List Scheme :=
  find_schemes_in_text db (title ++ " " ++ summary) none

/-- Embeds `detect_ministries(title, summary)` up to the extracted spans:
the source collects regex matches `(\w+\s+){0,3}keyword` for every ministry
keyword occurring in the lowercased text, dedups them through a `set` (whose
iteration order Python leaves unspecified) and truncates to 5; the regex has
a match exactly when the keyword occurs as a substring, so the list of
matching keywords returned here is empty iff the source's list is.  The
scorer reads only emptiness and a length that ends up in a factor string. -/
def detect_ministries (title summary : String) : List String :=
  MINISTRY_KEYWORDS.filter (fun k => pyIn (pyLower k) (pyLower (title ++ " " ++ summary)))

/-- Embeds `is_trusted_source(source)`. -/
def is_trusted_source (source : String) : Bool :=
  TRUSTED_GOV_SOURCES.any (fun t => pyIn t (pyLower source))

/-- Embeds `has_entertainment_keywords(title, summary)`. -/
def has_entertainment_keywords (title summary : String) : Bool :=
  ENTERTAINMENT_KEYWORDS.any (fun k => pyIn k (pyLower (title ++ " " ++ summary)))

/-- Embeds `has_tribute_keywords(title, summary)`. -/
def has_tribute_keywords (title summary : String) : Bool :=
  TRIBUTE_KEYWORDS.any (fun k => pyIn k (pyLower (title ++ " " ++ summary)))

/-- Embeds `has_strong_exclusion_keywords(title, summary)`. -/
def has_strong_exclusion_keywords (title summary : String) : Bool :=
  STRONG_EXCLUSION_KEYWORDS.any (fun k => pyIn k (pyLower (title ++ " " ++ summary)))

/-- Embeds `detect_anomalies(article)` from `app/confidence_scorer.py`:
the seven anomaly patterns, appended in source order. -/
def detect_anomalies (goiKw : List String) (a : ScoreArticle) : List String :=
  let gov_count := count_government_keywords goiKw a.title a.summary
  let sentiment := a.sentiment_score.getD 0
  let category := a.content_category.getD ""
  (if 2 ≤ gov_count ∧ has_entertainment_keywords a.title a.summary = true then
    ["government_entertainment_mix"] else []) ++
  (if is_trusted_source a.source = true ∧ has_entertainment_keywords a.title a.summary = true then
    ["government_source_entertainment_content"] else []) ++
  (if 95 < sentiment then ["unusually_positive_sentiment"] else []) ++
  (if a.goi_schemes ≠ [] ∧ category ≠ "" ∧ pyLower category ≠ "government" then
    ["scheme_non_government_category_mismatch"] else []) ++
  (if 200 < a.title.length then ["unusually_long_title"] else []) ++
  (if a.language.getD "" = "" then ["no_language_detected"] else []) ++
  (if 2 ≤ gov_count ∧ has_strong_exclusion_keywords a.title a.summary = true then
    ["government_international_keyword_mix"] else [])

/-- The scheme-detection update `article["goi_schemes"] = scheme_names`
performed by `calculate_confidence_score` before anomaly detection. -/
def articleWithDetectedSchemes (db : List Scheme) (a : ScoreArticle) : ScoreArticle :=
  let detected := detect_schemes db a.title a.summary
  if detected.isEmpty then a else { a with goi_schemes := detected.map Scheme.name }

/-- Additive sum of the six contributing factors and five penalties of
`calculate_confidence_score`, in hundredths, before clamping. -/
def confidence_raw_score (goiKw : List String) (db : List Scheme) (a : ScoreArticle) : Int :=
  let gov := count_government_keywords goiKw a.title a.summary
  let schemeCount := (detect_schemes db a.title a.summary).length
  let cc := a.classification_confidence.getD 0
  (if 5 ≤ gov then 25 else if 3 ≤ gov then 20 else if 1 ≤ gov then 10 else 0) +
  (if 3 ≤ schemeCount then 30 else if schemeCount = 2 then 25
   else if schemeCount = 1 then 20 else 0) +
  (if is_trusted_source a.source then 20 else 0) +
  (if detect_ministries a.title a.summary ≠ [] then 15 else 0) +
  (if 90 < cc then 10 else if 70 < cc then 5 else 0) +
  (if a.is_goi then 10 else 0) -
  (if has_strong_exclusion_keywords a.title a.summary then 60 else 0) -
  (if has_entertainment_keywords a.title a.summary then 40 else 0) -
  (if has_tribute_keywords a.title a.summary then 30 else 0) -
  (if gov = 0 then 20 else 0) -
  (match a.published_days_old with
   | some d => if 30 < d then 10 else 0
   | none => 0)

/-- `final_score = max(0.0, min(1.0, score))` in hundredths. -/
def confidence_final_score (goiKw : List String) (db : List Scheme) (a : ScoreArticle) : Int :=
  max 0 (min 100 (confidence_raw_score goiKw db a))

/-- Level and routing flags as functions of the clamped score
(`level, auto_approved, auto_rejected, needs_verification`), before the
anomaly override. -/
def routeFlags (final : Int) : String × Bool × Bool × Bool :=
  if 80 ≤ final then ("high", true, false, false)
  else if 50 ≤ final then ("medium", false, false, true)
  else ("low", false, true, false)

/-- `contributing_factors` accumulation of `calculate_confidence_score`, in
source order. -/
def contributing_factors_list (goiKw : List String) (db : List Scheme)
    (a : ScoreArticle) : List String :=
  let gov := count_government_keywords goiKw a.title a.summary
  let schemeCount := (detect_schemes db a.title a.summary).length
  let cc := a.classification_confidence.getD 0
  (if 5 ≤ gov then ["strong_keyword_match_" ++ toString gov]
   else if 3 ≤ gov then ["good_keyword_match_" ++ toString gov]
   else if 1 ≤ gov then ["moderate_keyword_match_" ++ toString gov] else []) ++
  (if 3 ≤ schemeCount then ["multiple_schemes_" ++ toString schemeCount]
   else if schemeCount = 2 then ["two_schemes"]
   else if schemeCount = 1 then ["single_scheme"] else []) ++
  (if is_trusted_source a.source then ["official_government_source"] else []) ++
  (if detect_ministries a.title a.summary ≠ [] then
    ["ministry_mentioned_" ++ toString (detect_ministries a.title a.summary).length] else []) ++
  (if 90 < cc then ["high_nlp_confidence"]
   else if 70 < cc then ["medium_nlp_confidence"] else []) ++
  (if a.is_goi then ["goi_filter_positive"] else []) ++
  (if has_strong_exclusion_keywords a.title a.summary then
    ["international_keywords_detected"] else []) ++
  (if has_entertainment_keywords a.title a.summary then
    ["entertainment_keywords_detected"] else []) ++
  (if has_tribute_keywords a.title a.summary then ["tribute_keywords_detected"] else []) ++
  (if gov = 0 then ["no_government_keywords"] else []) ++
  (match a.published_days_old with
   | some d => if 30 < d then ["old_article_" ++ toString d ++ "days"] else []
   | none => [])

/-- Result of `calculate_confidence_score` (`anomalies` is
`anomalies if anomalies else None`). -/
structure ScoreResult where
  confidence_score : Int
  confidence_level : String
  contributing_factors : List String
  auto_approved : Bool
  auto_rejected : Bool
  needs_verification : Bool
  anomalies : Option (List String)
deriving DecidableEq

/-- Embeds `calculate_confidence_score(article)` from
`app/confidence_scorer.py`: clamped additive score, level thresholds
`≥ 0.80` / `≥ 0.50`, routing flags, then the anomaly override
(`needs_verification = True; auto_approved = False`, `auto_rejected` kept). -/
def calculate_confidence_score (goiKw : List String) (db : List Scheme)
    (a : ScoreArticle) : ScoreResult :=
  let final := confidence_final_score goiKw db a
  let lf := routeFlags final
  let anomalies := detect_anomalies goiKw (articleWithDetectedSchemes db a)
  if anomalies ≠ [] then
    { confidence_score := final, confidence_level := lf.1,
      contributing_factors := contributing_factors_list goiKw db a,
      auto_approved := false, auto_rejected := lf.2.2.1,
      needs_verification := true, anomalies := some anomalies }
  else
    { confidence_score := final, confidence_level := lf.1,
      contributing_factors := contributing_factors_list goiKw db a,
      auto_approved := lf.2.1, auto_rejected := lf.2.2.1,
      needs_verification := lf.2.2.2, anomalies := none }

/-- Per-item error default of `batch_calculate_confidence`
(`app/confidence_scorer.py`). -/
def batchErrorDefault : ScoreResult :=
  { confidence_score := 50, confidence_level := "medium",
    contributing_factors := ["error_in_calculation"],
    auto_approved := false, auto_rejected := false, needs_verification := true,
    anomalies := some ["confidence_calculation_error"] }

/-- Sample English GOI keyword list used to instantiate the abstracted
`GOI_KEYWORDS["en"]` parameter in concrete evaluations. -/
def sampleGoiKeywords : List String :=
  ["ministry", "government", "scheme", "minister", "department"]

/-- Concrete high-scoring article whose sentiment score `0.96` raises the
`unusually_positive_sentiment` anomaly. -/
def highScoreAnomalousArticle : ScoreArticle :=
  { title := "Ayushman Bharat update",
    summary := "ministry government scheme minister department",
    source := "pib.gov.in", classification_confidence := some 95,
    is_goi := true, sentiment_score := some 96, goi_schemes := [],
    content_category := some "Government", language := some "en",
    published_days_old := none }

/-- The same article with an unremarkable sentiment score: no anomalies. -/
def highScoreCleanArticle : ScoreArticle :=
  { highScoreAnomalousArticle with sentiment_score := some 50 }

/-! ## Persistence, collection counting, and the alert trigger

Embeds `Database.upsert_article` (`app/database.py`), the save/count loop
and the alert-trigger condition of `NewsCollector.collect_once`
(`app/news_collector.py`), and the save/count loop of
`AsyncNewsCollector.collect_async` (`app/async_collector.py`).  A stored
`articles` row is modelled by its attribute assignment (`fields k` = the
value written for column `k`, if any) plus the server-assigned
`collected_at`, an abstract timestamp supplied as the `now` argument at
insert time.  SHA-256 hashing (`compute_article_hash`) is opaque here: the
`hash` value travels through the dict like any other field, and the matching
condition compares it verbatim. -/

/-- Confidence-scoring transient fields stripped by
`Database.upsert_article`. -/
def confidence_fields : List String :=
  ["confidence_score", "confidence_level", "contributing_factors",
   "auto_approved", "auto_rejected", "needs_verification", "anomalies"]

/-- `data = {k: v for k, v in data.items() if k not in confidence_fields}`. -/
def stripConfidenceFields (d : PyDict) : PyDict :=
  d.filter (fun kv => !(confidence_fields.contains kv.1))

/-- A stored `articles` row. -/
structure Row where
  fields : String → Option AVal
  collected_at : ℚ

/-- Row constructed by `Article(**data)` at insert time (`collected_at`
column default applies). -/
def insertRowOf (now : ℚ) (d : PyDict) : Row :=
  { fields := fun k => dictFind d k, collected_at := now }

/-- In-place overwrite `for k, v in data.items(): setattr(existing, k, v)`:
supplied keys take the supplied value, all other attributes — including
`collected_at`, which is never among the data keys — are preserved. -/
def updateRowOf (d : PyDict) (r : Row) : Row :=
  { fields := fun k => match dictFind d k with
      | some v => some v
      | none => r.fields k,
    collected_at := r.collected_at }

/-- Match condition
`(Article.url == data["url"]) | (Article.hash == data["hash"])`. -/
def rowMatches (d : PyDict) (r : Row) : Bool :=
  if r.fields "url" = dictFind d "url" ∨ r.fields "hash" = dictFind d "hash" then true
  else false

/-- `.first()`-style replacement: update the first matching row in place;
`none` when no row matches. -/
def upsertRows (mat : Row → Bool) (upd : Row → Row) : List Row → Option (List Row × Row)
  | [] => none
  | r :: rs =>
    if mat r then some (upd r :: rs, upd r)
    else
      match upsertRows mat upd rs with
      | some (rs2, row) => some (r :: rs2, row)
      | none => none

/-- Embeds `Database.upsert_article(data)` (`app/database.py`): strip the
confidence-scoring transient fields; find an existing row by URL or hash and
overwrite its supplied fields in place (preserving `collected_at`), or
insert a new row.  Returns the new store and the `(article, created)`
pair. -/
def upsert_article (now : ℚ) (store : List Row) (data : PyDict) :
    List Row × Row × Bool :=
  let d := stripConfidenceFields data
  match upsertRows (rowMatches d) (updateRowOf d) store with
  | some (store2, row) => (store2, row, false)
  | none => (store ++ [insertRowOf now d], insertRowOf now d, true)

/-- Per-article save-and-count step of `NewsCollector.collect_once`:
`created += 1 if is_created else 0; updated += 0 if is_created else 1`. -/
def collectSaveStep (now : ℚ) (acc : List Row × Nat × Nat) (d : PyDict) :
    List Row × Nat × Nat :=
  let r := upsert_article now acc.1 d
  (r.1, acc.2.1 + (if r.2.2 then 1 else 0), acc.2.2 + (if r.2.2 then 0 else 1))

/-- Store and `(created, updated)` counters after saving `items` in one
`collect_once` pass. -/
def collect_counts (now : ℚ) (store : List Row) (items : List PyDict) :
    List Row × Nat × Nat :=
  items.foldl (collectSaveStep now) (store, 0, 0)

/-- Python's `==` between the `(article, created)` tuple returned by
`Database.upsert_article` and a `str`: values of different types compare
unequal, so this is constantly `False`. -/
def pyTupleEqStr (result : Row × Bool) (s : String) : Bool := false

/-- Per-article save-and-count step of `AsyncNewsCollector.collect_async`
(`app/async_collector.py`): `result = self.db.upsert_article(article)`, then
`if result == "created": created += 1 elif result == "updated":
updated += 1` — comparing the returned tuple against strings. -/
def asyncSaveStep (now : ℚ) (acc : List Row × Nat × Nat) (d : PyDict) :
    List Row × Nat × Nat :=
  let r := upsert_article now acc.1 d
  (r.1,
   acc.2.1 + (if pyTupleEqStr r.2 "created" then 1 else 0),
   acc.2.2 + (if pyTupleEqStr r.2 "updated" then 1 else 0))

/-- Store and `(created, updated)` counters after saving `items` in one
`collect_async` pass. -/
def async_collect_counts (now : ℚ) (store : List Row) (items : List PyDict) :
    List Row × Nat × Nat :=
  items.foldl (asyncSaveStep now) (store, 0, 0)

/-- Alert-trigger condition of `collect_once` (`app/news_collector.py`,
lines 421–428): requires `settings.ALERT_ENABLED`, a newly created row, a
non-empty `schemes` key — note: the article dict built by
`_entry_to_article` writes `goi_schemes`, never `schemes` — a lowercased
`sentiment_label` of `negative`, and `sentiment_score ≥
settings.ALERT_NEGATIVE_THRESHOLD`. -/
def collectAlertCondition (alertEnabled isCreated : Bool) (art : PyDict)
    (threshold : ℚ) : Bool :=
  alertEnabled && isCreated &&
    (let label0 := dictGetStr art "sentiment_label"
     let label := if label0 ≠ "" then pyLower label0 else ""
     let score := dictGetQ art "sentiment_score"
     let schemes := dictGetList art "schemes"
     (!schemes.isEmpty) && (label == "negative") && (decide (threshold ≤ score)))

/-- Modelled from the spec: the §4.12 alert-trigger predicate
`alert_enabled ∧ sentiment_label = negative ∧ sentiment_score ≥
ALERT_THRESHOLD ∧ len(goi_schemes) > 0` on a stored article (the spec reads
the article's `goi_schemes` field; the missing piece relative to the code is
nothing — this is the comparison point for the gate above). -/
def specAlertPredicate (alertEnabled : Bool) (art : PyDict) (threshold : ℚ) : Prop :=
  alertEnabled = true ∧
  pyLower (dictGetStr art "sentiment_label") = "negative" ∧
  threshold ≤ dictGetQ art "sentiment_score" ∧
  dictGetList art "goi_schemes" ≠ []

/-- Article dict as built by `NewsCollector._entry_to_article`
(`app/news_collector.py`, lines 313–345, plus the confidence update): the
exact key set the builder writes — `goi_schemes` is a key, `schemes` is
not. -/
def alertArticleDict : PyDict :=
  [("url", AVal.s "https://example.in/mgnrega-delay"),
   ("title", AVal.s "MGNREGA wage delays reported"),
   ("summary", AVal.s "Workers report delayed payments"),
   ("content", AVal.s "Workers report delayed payments"),
   ("source", AVal.s "pib regional"),
   ("region", AVal.nil),
   ("language", AVal.s "en"),
   ("detected_language", AVal.s "en"),
   ("detected_script", AVal.s "Latin"),
   ("language_confidence", AVal.q (9/10)),
   ("translated_title", AVal.nil),
   ("translated_summary", AVal.nil),
   ("published_at", AVal.nil),
   ("sentiment_label", AVal.s "negative"),
   ("sentiment_score", AVal.q (7/10)),
   ("sentiment_polarity", AVal.q (-(7/10))),
   ("topic_labels", AVal.lst []),
   ("entities", AVal.lst []),
   ("is_goi", AVal.b true),
   ("relevance_score", AVal.q (4/5)),
   ("goi_ministries", AVal.lst []),
   ("goi_schemes", AVal.lst ["MGNREGA"]),
   ("goi_entities", AVal.lst []),
   ("goi_matched_terms", AVal.lst []),
   ("content_category", AVal.s "Government"),
   ("content_sub_category", AVal.s "Public Grievance"),
   ("classification_confidence", AVal.q 1),
   ("classification_keywords", AVal.lst []),
   ("should_show_pib", AVal.b true),
   ("filter_reason", AVal.nil),
   ("hash", AVal.s "h1"),
   ("confidence_score", AVal.q (9/10)),
   ("confidence_level", AVal.s "high"),
   ("contributing_factors", AVal.lst []),
   ("auto_approved", AVal.b true),
   ("auto_rejected", AVal.b false),
   ("needs_verification", AVal.b false),
   ("anomalies", AVal.nil)]

/-- Article dict whose only `goi_schemes` entry came from the partial-word
scheme match on the text `"news about bharat"`. -/
def bharatArticleDict : PyDict :=
  [("url", AVal.s "https://example.in/bharat-item"),
   ("title", AVal.s "news about bharat"),
   ("summary", AVal.s "scheme delays reported"),
   ("content", AVal.s "scheme delays reported"),
   ("source", AVal.s "pib regional"),
   ("language", AVal.s "en"),
   ("sentiment_label", AVal.s "negative"),
   ("sentiment_score", AVal.q (4/5)),
   ("is_goi", AVal.b true),
   ("relevance_score", AVal.q (4/5)),
   ("goi_ministries", AVal.lst []),
   ("goi_schemes", AVal.lst ["Ayushman Bharat - PM-JAY"]),
   ("content_category", AVal.s "Government"),
   ("should_show_pib", AVal.b true),
   ("hash", AVal.s "h2")]

/-! ## Theorems -/

theorem normalizeLabel_positive : normalizeLabel "positive" = "positive" := by decide

theorem normalizeLabel_negative : normalizeLabel "negative" = "negative" := by decide

theorem normalizeLabel_neutral : normalizeLabel "neutral" = "neutral" := by decide

theorem convert_to_polarity_positive (score : ℚ) :
    convert_to_polarity "positive" score = score := by
  unfold convert_to_polarity
  rw [if_pos (by decide)]

theorem convert_to_polarity_negative (score : ℚ) :
    convert_to_polarity "negative" score = -score := by
  unfold convert_to_polarity
  rw [if_neg (by decide), if_pos (by decide)]

theorem convert_to_polarity_neutral (score : ℚ) :
    convert_to_polarity "neutral" score = 0 := by
  unfold convert_to_polarity
  rw [if_neg (by decide), if_neg (by decide)]

/-- C5 counterexample: a model output labelled `positive` with score `0.3`
gets polarity `+0.3` attached by `_convert_to_polarity`, but
`normalize_sentiment` then flips the stored label to `negative` (score
`≤ 0.4`), so the persisted article has `sentiment_label = "negative"` with
`sentiment_polarity = 0.3 > 0` and `polarity ≠ -score`, refuting both the
equation `negative → polarity = −score` and the sign-match invariant. -/
theorem C5_counterexample :
    (pipelineStoredSentiment "positive" (3/10)).label = "negative" ∧
    (pipelineStoredSentiment "positive" (3/10)).score = 3/10 ∧
    (pipelineStoredSentiment "positive" (3/10)).polarity = 3/10 ∧
    ¬ ((pipelineStoredSentiment "positive" (3/10)).polarity ≤ 0) ∧
    (pipelineStoredSentiment "positive" (3/10)).polarity ≠
      -(pipelineStoredSentiment "positive" (3/10)).score := by
  have hpol : (pipelineStoredSentiment "positive" (3/10)).polarity = 3/10 := by
    show convert_to_polarity "positive" (3/10) = 3/10
    rw [convert_to_polarity_positive]
  have hlab : (pipelineStoredSentiment "positive" (3/10)).label = "negative" := by
    show (normalize_sentiment "positive" (3/10)).1 = "negative"
    simp only [normalize_sentiment, normalizeLabel_positive]
    rw [if_neg (by norm_num), if_pos (by norm_num)]
    decide
  have hsc : (pipelineStoredSentiment "positive" (3/10)).score = 3/10 := rfl
  refine ⟨hlab, hsc, hpol, ?_, ?_⟩
  · rw [hpol]; norm_num
  · rw [hpol, hsc]; norm_num

/-- C5 (amended): the stored `sentiment_polarity` equals `+score` / `−score` /
`0` according to the label assigned by the sentiment model at analysis time
(before `normalize_sentiment`); when the model score is at least `0.6`,
`normalize_sentiment` keeps that label, and then the sign of the stored
polarity matches the stored label (negative → ≤ 0, positive → ≥ 0, neutral →
0).  When the score is below `0.6` the stored label can be re-assigned while
the polarity is not, and the sign match can fail (see the counterexample). -/
theorem C5_polarity_label_sign (label : String) (score : ℚ) (h0 : 0 ≤ score)
    (hl : label = "positive" ∨ label = "negative" ∨ label = "neutral") :
    ((pipelineStoredSentiment label score).polarity =
      (if label = "positive" then score else if label = "negative" then -score else 0)) ∧
    ((pipelineStoredSentiment label score).score = score) ∧
    (3/5 ≤ score →
      (pipelineStoredSentiment label score).label = label ∧
      ((pipelineStoredSentiment label score).label = "negative" →
        (pipelineStoredSentiment label score).polarity ≤ 0) ∧
      ((pipelineStoredSentiment label score).label = "positive" →
        0 ≤ (pipelineStoredSentiment label score).polarity) ∧
      ((pipelineStoredSentiment label score).label = "neutral" →
        (pipelineStoredSentiment label score).polarity = 0)) := by
  have hpol : (pipelineStoredSentiment label score).polarity =
      convert_to_polarity label score := rfl
  have hsc : (pipelineStoredSentiment label score).score = score := rfl
  have hlabel : ∀ h6 : 3/5 ≤ score,
      (pipelineStoredSentiment label score).label = normalizeLabel label := by
    intro h6
    show (normalize_sentiment label score).1 = normalizeLabel label
    simp only [normalize_sentiment]
    rw [if_pos h6]
  rcases hl with h | h | h <;> subst h
  · refine ⟨?_, hsc, ?_⟩
    · rw [hpol, convert_to_polarity_positive, if_pos rfl]
    · intro h6
      have hlab := (hlabel h6).trans normalizeLabel_positive
      refine ⟨hlab, ?_, ?_, ?_⟩
      · intro hc; rw [hlab] at hc; exact absurd hc (by decide)
      · intro _; rw [hpol, convert_to_polarity_positive]; exact h0
      · intro hc; rw [hlab] at hc; exact absurd hc (by decide)
  · refine ⟨?_, hsc, ?_⟩
    · rw [hpol, convert_to_polarity_negative, if_neg (by decide), if_pos rfl]
    · intro h6
      have hlab := (hlabel h6).trans normalizeLabel_negative
      refine ⟨hlab, ?_, ?_, ?_⟩
      · intro _; rw [hpol, convert_to_polarity_negative]; simpa using h0
      · intro hc; rw [hlab] at hc; exact absurd hc (by decide)
      · intro hc; rw [hlab] at hc; exact absurd hc (by decide)
  · refine ⟨?_, hsc, ?_⟩
    · rw [hpol, convert_to_polarity_neutral, if_neg (by decide), if_neg (by decide)]
    · intro h6
      have hlab := (hlabel h6).trans normalizeLabel_neutral
      refine ⟨hlab, ?_, ?_, ?_⟩
      · intro hc; rw [hlab] at hc; exact absurd hc (by decide)
      · intro hc; rw [hlab] at hc; exact absurd hc (by decide)
      · intro _; rw [hpol, convert_to_polarity_neutral]

/-- C5 witness: the amended theorem applied at `("negative", 0.8)`: the label
is kept and the polarity is `-0.8 ≤ 0`. -/
theorem C5_polarity_label_sign_witness :
    (pipelineStoredSentiment "negative" (4/5)).label = "negative" ∧
    (pipelineStoredSentiment "negative" (4/5)).polarity ≤ 0 := by
  have h := C5_polarity_label_sign "negative" (4/5) (by norm_num) (Or.inr (Or.inl rfl))
  have h6 := h.2.2 (by norm_num)
  exact ⟨h6.1, h6.2.1 h6.1⟩

/-- A chain all of whose steps fail on the given input returns `none`. -/
theorem translationChain_all_fail (steps : List (String → Option String)) (t : String)
    (h : ∀ f ∈ steps, ∀ r, f t = some r → ¬ 10 < (pyStrip r).length) :
    translationChain steps t = none := by
  induction steps with
  | nil => rfl
  | cons f fs ih =>
    have hf := h f (by simp)
    have hrest : ∀ g ∈ fs, ∀ r, g t = some r → ¬ 10 < (pyStrip r).length := by
      intro g hg r hr
      exact h g (by simp [hg]) r hr
    unfold translationChain
    cases hft : f t with
    | none => exact ih hrest
    | some r =>
      have := hf r hft
      simp only [if_neg this]
      exact ih hrest

/-- C6 counterexample: on the empty input with a non-English source language,
`translate_to_english` hits `if not text or source_lang == 'en': return text`
and returns the empty string itself, not `None`. -/
theorem C6_counterexample :
    translate_to_english id [] "" "hi" = some "" ∧
    translate_to_english id [] "" "hi" ≠ none := by
  constructor
  · rfl
  · intro h
    simp [translate_to_english] at h

/-- C6 (amended): `translate_to_english` returns its input unchanged whenever
`source_lang = "en"` or the input is empty (the falsy passthrough returns the
empty input itself rather than `None`); and for every non-empty non-English
input on which every step of the fallback chain fails — a step succeeding
only when its stripped output is longer than 10 characters — the result is
`None` (this includes inputs that become empty after HTML cleaning). -/
theorem C6_translate_contract (cleanHtml : String → String)
    (steps : List (String → Option String)) (text source_lang : String) :
    (source_lang = "en" → translate_to_english cleanHtml steps text source_lang = some text) ∧
    (text = "" → translate_to_english cleanHtml steps text source_lang = some text) ∧
    (text ≠ "" → source_lang ≠ "en" →
      (∀ f ∈ steps, ∀ r, f (translationInput cleanHtml text) = some r →
        ¬ 10 < (pyStrip r).length) →
      translate_to_english cleanHtml steps text source_lang = none) := by
  refine ⟨?_, ?_, ?_⟩
  · intro h
    unfold translate_to_english
    rw [if_pos (Or.inr h)]
  · intro h
    unfold translate_to_english
    rw [if_pos (Or.inl h)]
  · intro ht hs hfail
    unfold translate_to_english
    rw [if_neg (by tauto)]
    by_cases hc : cleanHtml text = ""
    · rw [if_pos hc]
    · rw [if_neg hc]
      exact translationChain_all_fail steps _ hfail

/-- C6 witness: the amended theorem applied at a concrete non-empty Hindi
input whose single provider returns a too-short output: the result is
`None`. -/
theorem C6_translate_contract_witness :
    translate_to_english id [fun _ => some "short"] "abc" "hi" = none := by
  have h := C6_translate_contract id [fun _ => some "short"] "abc" "hi"
  refine h.2.2 (by decide) (by decide) ?_
  intro f hf r hr
  simp only [List.mem_singleton] at hf
  subst hf
  simp only [Option.some.injEq] at hr
  subst hr
  decide

theorem processorBaseConfidence_bounds (lc0 : Option String) :
    0 ≤ processorBaseConfidence lc0 ∧ processorBaseConfidence lc0 ≤ 1 := by
  cases lc0 with
  | none => constructor <;> norm_num [processorBaseConfidence]
  | some c =>
    simp only [processorBaseConfidence]
    split_ifs <;> constructor <;> norm_num

theorem detect_language_core_conf_bounds (ld : LDOutcome) (script : String)
    (lc0 : Option String) (conf0 : ℚ) (h0 : 0 ≤ conf0) (h1 : conf0 ≤ 1) :
    0 ≤ (detect_language_core ld script lc0 conf0).2 ∧
    (detect_language_core ld script lc0 conf0).2 ≤ 1 := by
  cases ld <;> simp only [detect_language_core]
  · exact ⟨h0, h1⟩
  · split_ifs <;> constructor <;> first | assumption | norm_num
  · split_ifs <;> constructor <;> first | assumption | norm_num

/-- C7 counterexample: `"Hello"` is shorter than 10 characters, yet the
pipeline's detector `MultilingualProcessor.detect_language` (whose guard is
`len(text.strip()) < 3`, not 10) does not return the unknown triplet: it
detects Latin script and returns `{en, Latin, 0.9}` even with the statistical
detector unavailable. -/
theorem C7_counterexample :
    "Hello".length < 10 ∧
    (detect_language LDOutcome.unavailable "Hello").code = some "en" ∧
    (detect_language LDOutcome.unavailable "Hello").script = "Latin" ∧
    (detect_language LDOutcome.unavailable "Hello").confidence = 9/10 ∧
    ¬ ((detect_language LDOutcome.unavailable "Hello").code = some "unknown" ∧
       (detect_language LDOutcome.unavailable "Hello").script = "Unknown" ∧
       (detect_language LDOutcome.unavailable "Hello").confidence = 0) := by
  have hc : (detect_language LDOutcome.unavailable "Hello").code = some "en" := rfl
  refine ⟨by decide, hc, rfl, rfl, ?_⟩
  rintro ⟨h1, -, -⟩
  rw [hc] at h1
  exact absurd (Option.some.inj h1) (by decide)

/-- C7 (amended): the 10-character unknown-triplet guard belongs to
`LanguageDetector.detect` (`ai_pipeline/language_detector.py`); the
collection pipeline's `MultilingualProcessor.detect_language` returns the
unknown triplet only below 3 stripped characters and can return a real
detection for shorter-than-10 texts.  For every input,
`detect_language`'s confidence lies in `[0,1]`; `detect`'s confidence lies in
`[0,1]` whenever the statistical detector reports probabilities in
`[0,1]`. -/
theorem C7_language_detection :
    (∀ (ld : LDProbs) (text : String), (pyStrip text).length < 10 →
      (LanguageDetector_detect ld text).code = "unknown" ∧
      (LanguageDetector_detect ld text).script = "unknown" ∧
      (LanguageDetector_detect ld text).confidence = 0) ∧
    (∀ (ld : LDOutcome) (text : String), (pyStrip text).length < 3 →
      (detect_language ld text).code = some "unknown" ∧
      (detect_language ld text).script = "Unknown" ∧
      (detect_language ld text).confidence = 0) ∧
    (∀ (ld : LDOutcome) (text : String),
      0 ≤ (detect_language ld text).confidence ∧
      (detect_language ld text).confidence ≤ 1) ∧
    (∀ (l : List (String × ℚ)) (text : String), (∀ p ∈ l, 0 ≤ p.2 ∧ p.2 ≤ 1) →
      0 ≤ (LanguageDetector_detect (LDProbs.probs l) text).confidence ∧
      (LanguageDetector_detect (LDProbs.probs l) text).confidence ≤ 1) := by
  refine ⟨?_, ?_, ?_, ?_⟩
  · intro ld text h
    unfold LanguageDetector_detect
    rw [if_pos (Or.inr h)]
    exact ⟨rfl, rfl, rfl⟩
  · intro ld text h
    unfold detect_language
    rw [if_pos (Or.inr h)]
    exact ⟨rfl, rfl, rfl⟩
  · intro ld text
    unfold detect_language
    by_cases hg : text = "" ∨ (pyStrip text).length < 3
    · rw [if_pos hg]
      constructor <;> norm_num
    · rw [if_neg hg]
      exact detect_language_core_conf_bounds ld _ _ _
        (processorBaseConfidence_bounds _).1 (processorBaseConfidence_bounds _).2
  · intro l text h
    unfold LanguageDetector_detect
    by_cases hg : text = "" ∨ (pyStrip text).length < 10
    · rw [if_pos hg]
      constructor <;> norm_num
    · rw [if_neg hg]
      cases l with
      | nil => constructor <;> norm_num
      | cons p rest =>
        rcases p with ⟨c, q⟩
        exact h (c, q) (by simp)

/-- C7 witness: the amended theorem applied at concrete inputs — a short text
through each detector, and in-range confidences at concrete texts. -/
theorem C7_language_detection_witness :
    (LanguageDetector_detect LDProbs.failure "hi").code = "unknown" ∧
    (detect_language LDOutcome.failed "a").confidence = 0 ∧
    0 ≤ (detect_language LDOutcome.unavailable "Hello world").confidence ∧
    (LanguageDetector_detect (LDProbs.probs [("en", 1/2)]) "a government scheme text").confidence ≤ 1 := by
  refine ⟨(C7_language_detection.1 LDProbs.failure "hi" (by decide)).1,
    (C7_language_detection.2.1 LDOutcome.failed "a" (by decide)).2.2,
    (C7_language_detection.2.2.1 LDOutcome.unavailable "Hello world").1,
    (C7_language_detection.2.2.2 [("en", 1/2)] "a government scheme text" ?_).2⟩
  intro p hp
  simp only [List.mem_singleton] at hp
  subst hp
  constructor <;> norm_num

/-- C8 counterexample: on the input `text = "pakistan"`, `title = ""` (with
any keyword tables — here the empty ones), `classify_content` takes the early
international-rejection branch and returns confidence `1.0`, while the
keyword maximum score on the same input is `0`, so the returned confidence is
not `min(max_score / 10, 1.0)`. -/
theorem C8_counterexample :
    (classify_content emptyKeywordTables "pakistan" "" "en").primary_category = "International" ∧
    (classify_content emptyKeywordTables "pakistan" "" "en").should_show = false ∧
    (classify_content emptyKeywordTables "pakistan" "" "en").confidence = 1 ∧
    categoryMaxScore emptyKeywordTables (classifyCombined "pakistan" "") (classifyLang "en") = 0 ∧
    (classify_content emptyKeywordTables "pakistan" "" "en").confidence ≠
      min ((categoryMaxScore emptyKeywordTables (classifyCombined "pakistan" "")
        (classifyLang "en") : ℚ) / 10) 1 := by
  have hmax : categoryMaxScore emptyKeywordTables (classifyCombined "pakistan" "")
      (classifyLang "en") = 0 := by decide
  have hconf : (classify_content emptyKeywordTables "pakistan" "" "en").confidence = 1 := rfl
  refine ⟨rfl, rfl, hconf, hmax, ?_⟩
  rw [hconf, hmax]
  norm_num

/-- C8 (amended): for every keyword table and input, `classify_content`'s
decision table holds: `Government` always yields `should_show = true` with a
null `filter_reason`; `Political` yields `true` iff a government-response /
ministry-statement marker occurs in the combined text; `Sports` iff a
Khelo-India / sports-ministry marker occurs; `Crime` iff a
government-compensation / minister-announcement / official-statement marker
occurs; `Business` iff a government-regulation / ministry-approval /
government-policy marker occurs; `Entertainment`, `International` and `Other`
always yield `false`.  The returned confidence equals
`min(max_score / 10, 1.0)` for every non-empty input that is not classified
international; international results have confidence fixed at `1.0` by the
early rejection branch. -/
theorem C8_classification (kt : KeywordTables) (text title lang : String) :
    ((classify_content kt text title lang).primary_category = "Government" →
      (classify_content kt text title lang).should_show = true ∧
      (classify_content kt text title lang).filter_reason = none) ∧
    ((classify_content kt text title lang).primary_category = "Political" →
      ((classify_content kt text title lang).should_show = true ↔
        anyIn gov_response_keywords (classifyCombined text title) = true)) ∧
    ((classify_content kt text title lang).primary_category = "Sports" →
      ((classify_content kt text title lang).should_show = true ↔
        anyIn sports_exception_keywords (classifyCombined text title) = true)) ∧
    ((classify_content kt text title lang).primary_category = "Crime" →
      ((classify_content kt text title lang).should_show = true ↔
        anyIn crime_response_keywords (classifyCombined text title) = true)) ∧
    ((classify_content kt text title lang).primary_category = "Business" →
      ((classify_content kt text title lang).should_show = true ↔
        anyIn business_regulation_keywords (classifyCombined text title) = true)) ∧
    ((classify_content kt text title lang).primary_category = "Entertainment" ∨
     (classify_content kt text title lang).primary_category = "International" ∨
     (classify_content kt text title lang).primary_category = "Other" →
      (classify_content kt text title lang).should_show = false) ∧
    ((is_international_news text title).1 = false → ¬ (text = "" ∧ title = "") →
      (classify_content kt text title lang).confidence =
        min ((categoryMaxScore kt (classifyCombined text title)
          (classifyLang lang) : ℚ) / 10) 1) := by
  by_cases hEmpty : text = "" ∧ title = ""
  · have hr : classify_content kt text title lang =
        { primary_category := "Other", sub_category := "Unknown", confidence := 0,
          matched_keywords := [], should_show := false,
          filter_reason := some "No content to classify" } := by
      unfold classify_content
      rw [if_pos hEmpty]
    rw [hr]
    refine ⟨by simp, by simp, by simp, by simp, by simp, fun _ => rfl, ?_⟩
    intro _ hne
    exact absurd hEmpty hne
  · by_cases hIntl : (is_international_news text title).1 = true
    · have hr : classify_content kt text title lang =
          { primary_category := "International", sub_category := "Foreign News",
            confidence := 1,
            matched_keywords := [(is_international_news text title).2],
            should_show := false,
            filter_reason :=
              some ("International news: " ++ (is_international_news text title).2) } := by
        unfold classify_content
        rw [if_neg hEmpty, if_pos hIntl]
      rw [hr]
      refine ⟨by simp, by simp, by simp, by simp, by simp, fun _ => rfl, ?_⟩
      intro hfalse _
      rw [hIntl] at hfalse
      exact absurd hfalse (by decide)
    · have hIntl2 : (is_international_news text title).1 = false := by
        cases h : (is_international_news text title).1
        · rfl
        · exact absurd h hIntl
      have hr : classify_content kt text title lang =
          { primary_category :=
              classifyPrimary kt (classifyCombined text title) (classifyLang lang),
            sub_category := classifySub kt (classifyCombined text title) (classifyLang lang),
            confidence := classifyConfidence kt (classifyCombined text title) (classifyLang lang),
            matched_keywords :=
              (matchedKeywords kt (classifyCombined text title) (classifyLang lang)).take 10,
            should_show :=
              (should_show_to_pib
                (classifyPrimary kt (classifyCombined text title) (classifyLang lang))
                (classifySub kt (classifyCombined text title) (classifyLang lang))
                (classifyCombined text title) (classifyLang lang)).1,
            filter_reason :=
              (should_show_to_pib
                (classifyPrimary kt (classifyCombined text title) (classifyLang lang))
                (classifySub kt (classifyCombined text title) (classifyLang lang))
                (classifyCombined text title) (classifyLang lang)).2 } := by
        unfold classify_content
        rw [if_neg hEmpty]
        simp only [hIntl2, Bool.false_eq_true, if_false]
      rw [hr]
      simp only
      refine ⟨?_, ?_, ?_, ?_, ?_, ?_, ?_⟩
      · intro hp
        rw [hp]
        unfold should_show_to_pib
        rw [if_pos rfl]
        exact ⟨rfl, rfl⟩
      · intro hp
        rw [hp]
        unfold should_show_to_pib
        rw [if_neg (by decide), if_pos rfl]
        by_cases hg : anyIn gov_response_keywords (classifyCombined text title) = true
        · rw [if_pos hg]
          simp [hg]
        · rw [if_neg hg]
          simp only [Bool.false_eq_true, false_iff]
          intro hc
          exact hg hc
      · intro hp
        rw [hp]
        unfold should_show_to_pib
        rw [if_neg (by decide), if_neg (by decide), if_neg (by decide), if_pos rfl]
        by_cases hg : anyIn sports_exception_keywords (classifyCombined text title) = true
        · rw [if_pos hg]
          simp [hg]
        · rw [if_neg hg]
          simp only [Bool.false_eq_true, false_iff]
          intro hc
          exact hg hc
      · intro hp
        rw [hp]
        unfold should_show_to_pib
        rw [if_neg (by decide), if_neg (by decide), if_neg (by decide),
          if_neg (by decide), if_pos rfl]
        by_cases hg : anyIn crime_response_keywords (classifyCombined text title) = true
        · rw [if_pos hg]
          simp [hg]
        · rw [if_neg hg]
          simp only [Bool.false_eq_true, false_iff]
          intro hc
          exact hg hc
      · intro hp
        rw [hp]
        unfold should_show_to_pib
        rw [if_neg (by decide), if_neg (by decide), if_neg (by decide),
          if_neg (by decide), if_neg (by decide), if_pos rfl]
        by_cases hg : anyIn business_regulation_keywords (classifyCombined text title) = true
        · rw [if_pos hg]
          simp [hg]
        · rw [if_neg hg]
          simp only [Bool.false_eq_true, false_iff]
          intro hc
          exact hg hc
      · intro hp
        rcases hp with hp | hp | hp <;> rw [hp] <;> unfold should_show_to_pib
        · rw [if_neg (by decide), if_neg (by decide), if_pos rfl]
        · rw [if_neg (by decide), if_neg (by decide), if_neg (by decide),
            if_neg (by decide), if_neg (by decide), if_neg (by decide)]
        · rw [if_neg (by decide), if_neg (by decide), if_neg (by decide),
            if_neg (by decide), if_neg (by decide), if_neg (by decide)]
      · intro _ _
        unfold classifyConfidence
        by_cases hz : categoryMaxScore kt (classifyCombined text title) (classifyLang lang) = 0
        · rw [if_pos hz, hz]
          norm_num
        · rw [if_neg hz]

/-- C8 witness: the amended theorem applied at a concrete table with a single
`"scheme"` government keyword and the text `"government scheme launch"`: the
article classifies as `Government`, is shown with a null filter reason, and
the confidence formula holds. -/
theorem C8_classification_witness :
    (classify_content
      { emptyKeywordTables with government := fun _ => ["scheme"] }
      "government scheme launch" "" "en").should_show = true ∧
    (classify_content
      { emptyKeywordTables with government := fun _ => ["scheme"] }
      "government scheme launch" "" "en").filter_reason = none ∧
    (classify_content
      { emptyKeywordTables with government := fun _ => ["scheme"] }
      "government scheme launch" "" "en").confidence =
      min ((categoryMaxScore
        { emptyKeywordTables with government := fun _ => ["scheme"] }
        (classifyCombined "government scheme launch" "") (classifyLang "en") : ℚ) / 10) 1 := by
  have h := C8_classification
    { emptyKeywordTables with government := fun _ => ["scheme"] }
    "government scheme launch" "" "en"
  have hgov := h.1 (by decide)
  refine ⟨hgov.1, hgov.2, h.2.2.2.2.2.2 (by decide) (by decide)⟩

theorem schemeStep_eq_pos (tl : String) (acc : List Scheme × List String) (s : Scheme)
    (h : (schemeHit tl s && !(acc.2.contains s.name)) = true) :
    schemeStep tl acc s = (acc.1 ++ [s], acc.2 ++ [s.name]) := by
  unfold schemeStep
  rw [if_pos h]

theorem schemeStep_eq_neg (tl : String) (acc : List Scheme × List String) (s : Scheme)
    (h : ¬ (schemeHit tl s && !(acc.2.contains s.name)) = true) :
    schemeStep tl acc s = acc := by
  unfold schemeStep
  rw [if_neg h]

theorem schemeStep_fst_mono (tl : String) (l : List Scheme)
    (acc : List Scheme × List String) :
    ∃ ext, (l.foldl (schemeStep tl) acc).1 = acc.1 ++ ext := by
  induction l generalizing acc with
  | nil => exact ⟨[], (List.append_nil _).symm⟩
  | cons a l ih =>
    rw [List.foldl_cons]
    by_cases hc : (schemeHit tl a && !(acc.2.contains a.name)) = true
    · rw [schemeStep_eq_pos tl acc a hc]
      rcases ih (acc.1 ++ [a], acc.2 ++ [a.name]) with ⟨ext, hext⟩
      exact ⟨a :: ext, by rw [hext]; simp⟩
    · rw [schemeStep_eq_neg tl acc a hc]
      exact ih acc

theorem schemeStep_seen_inv_step (tl : String) (acc : List Scheme × List String)
    (a : Scheme) (hinv : acc.2 = acc.1.map Scheme.name) :
    (schemeStep tl acc a).2 = (schemeStep tl acc a).1.map Scheme.name := by
  by_cases hc : (schemeHit tl a && !(acc.2.contains a.name)) = true
  · rw [schemeStep_eq_pos tl acc a hc]
    simp [hinv]
  · rw [schemeStep_eq_neg tl acc a hc]
    exact hinv

theorem schemeStep_hit_mem (tl : String) (l : List Scheme)
    (acc : List Scheme × List String) (hinv : acc.2 = acc.1.map Scheme.name)
    (s : Scheme) (hs : s ∈ l) (hhit : schemeHit tl s = true) :
    s.name ∈ (l.foldl (schemeStep tl) acc).1.map Scheme.name := by
  induction l generalizing acc with
  | nil => cases hs
  | cons a l ih =>
    rw [List.foldl_cons]
    rcases List.mem_cons.mp hs with heq | hmem
    · subst heq
      have hmemacc : s.name ∈ (schemeStep tl acc s).1.map Scheme.name := by
        by_cases hc : (schemeHit tl s && !(acc.2.contains s.name)) = true
        · rw [schemeStep_eq_pos tl acc s hc]
          simp
        · rw [schemeStep_eq_neg tl acc s hc]
          have hcon : acc.2.contains s.name = true := by
            cases h : acc.2.contains s.name
            · exfalso
              apply hc
              rw [hhit, h]
              rfl
            · rfl
          rw [hinv] at hcon
          exact List.elem_iff.mp hcon
      rcases schemeStep_fst_mono tl l (schemeStep tl acc s) with ⟨ext, hext⟩
      rw [hext, List.map_append]
      exact List.mem_append_left _ hmemacc
    · exact ih (schemeStep tl acc a) (schemeStep_seen_inv_step tl acc a hinv) hmem

/-- C10 (amended): for every scheme table, any single word longer than 4
characters drawn from a scheme's English name occurring in the lowercased
text makes `find_schemes_in_text` report that scheme, even when no full
scheme name or configured alias occurs; and on any text where schemes are
detected, the collector's scheme boost elevates a non-GoI article to
`is_goi = true` with `relevance_score ≥ 0.8`, merging the detected names into
`goi_schemes`.  (Alerting, by contrast, cannot be triggered this way: see the
counterexample — `collect_once` reads the never-written `"schemes"` key.) -/
theorem C10_partial_word_scheme_matching :
    (∀ (db : List Scheme) (scheme : Scheme) (text : String) (lang : Option String)
      (w : String),
      scheme ∈ db → w ∈ nameWords scheme → pyIn w (pyLower text) = true → ¬ text = "" →
      scheme.name ∈ (find_schemes_in_text db text lang).map Scheme.name) ∧
    (∀ (db : List Scheme) (full_text : String) (lang : Option String)
      (gs : List String) (r : ℚ),
      find_schemes_in_text db full_text lang ≠ [] →
      (schemeBoost db full_text lang gs false r).2.1 = true ∧
      4/5 ≤ (schemeBoost db full_text lang gs false r).2.2 ∧
      ∀ s ∈ find_schemes_in_text db full_text lang,
        s.name ∈ (schemeBoost db full_text lang gs false r).1) := by
  constructor
  · intro db scheme text lang w hmem hw hpy htext
    have hB : ((nameWords scheme).any (fun w2 => pyIn w2 (pyLower text))) = true :=
      List.any_eq_true.mpr ⟨w, hw, hpy⟩
    have hhit : schemeHit (pyLower text) scheme = true := by
      unfold schemeHit
      rw [hB]
      simp
    unfold find_schemes_in_text
    rw [if_neg htext]
    exact schemeStep_hit_mem (pyLower text) db ([], []) rfl scheme hmem hhit
  · intro db full_text lang gs r hne
    rcases hl : find_schemes_in_text db full_text lang with _ | ⟨a, rest⟩
    · exact absurd hl hne
    · have hbe : schemeBoost db full_text lang gs false r =
          ((gs ++ (a :: rest).map Scheme.name).dedup, true, max r (4/5)) := by
        unfold schemeBoost
        rw [hl]
        rfl
      rw [hbe]
      refine ⟨rfl, le_max_right _ _, ?_⟩
      intro s hs
      exact List.mem_dedup.mpr (List.mem_append_right _ (List.mem_map_of_mem _ hs))

/-- C10 witness: the word `"bharat"` alone (no full scheme name, no alias)
makes `find_schemes_in_text` report the `"Ayushman Bharat - PM-JAY"` scheme
from the transcribed fragment of `CENTRAL_SCHEMES`, and the collector's
scheme boost then marks the article GoI-relevant. -/
theorem C10_partial_word_scheme_matching_witness :
    "Ayushman Bharat - PM-JAY" ∈
      (find_schemes_in_text CENTRAL_SCHEMES_frag "news about bharat" none).map Scheme.name ∧
    (schemeBoost CENTRAL_SCHEMES_frag "news about bharat" none [] false 0).2.1 = true := by
  constructor
  · exact C10_partial_word_scheme_matching.1 CENTRAL_SCHEMES_frag ayushmanScheme
      "news about bharat" none "bharat" (by decide) (by decide) (by decide) (by decide)
  · exact (C10_partial_word_scheme_matching.2 CENTRAL_SCHEMES_frag
      "news about bharat" none [] 0 (by decide)).1

theorem routeFlags_high (f : Int) (h : 80 ≤ f) :
    routeFlags f = ("high", true, false, false) := by
  unfold routeFlags
  rw [if_pos h]

theorem routeFlags_medium (f : Int) (h1 : ¬ 80 ≤ f) (h2 : 50 ≤ f) :
    routeFlags f = ("medium", false, false, true) := by
  unfold routeFlags
  rw [if_neg h1, if_pos h2]

theorem routeFlags_low (f : Int) (h1 : ¬ 80 ≤ f) (h2 : ¬ 50 ≤ f) :
    routeFlags f = ("low", false, true, false) := by
  unfold routeFlags
  rw [if_neg h1, if_neg h2]

theorem calc_score_eq (goiKw : List String) (db : List Scheme) (a : ScoreArticle) :
    (calculate_confidence_score goiKw db a).confidence_score =
      confidence_final_score goiKw db a := by
  unfold calculate_confidence_score
  dsimp only
  split <;> rfl

theorem calc_level_eq (goiKw : List String) (db : List Scheme) (a : ScoreArticle) :
    (calculate_confidence_score goiKw db a).confidence_level =
      (routeFlags (confidence_final_score goiKw db a)).1 := by
  unfold calculate_confidence_score
  dsimp only
  split <;> rfl

theorem calc_rejected_eq (goiKw : List String) (db : List Scheme) (a : ScoreArticle) :
    (calculate_confidence_score goiKw db a).auto_rejected =
      (routeFlags (confidence_final_score goiKw db a)).2.2.1 := by
  unfold calculate_confidence_score
  dsimp only
  split <;> rfl

theorem calc_no_anomalies (goiKw : List String) (db : List Scheme) (a : ScoreArticle)
    (h : detect_anomalies goiKw (articleWithDetectedSchemes db a) = []) :
    (calculate_confidence_score goiKw db a).auto_approved =
      (routeFlags (confidence_final_score goiKw db a)).2.1 ∧
    (calculate_confidence_score goiKw db a).needs_verification =
      (routeFlags (confidence_final_score goiKw db a)).2.2.2 ∧
    (calculate_confidence_score goiKw db a).anomalies = none := by
  unfold calculate_confidence_score
  dsimp only
  rw [if_neg (by simp [h])]
  exact ⟨rfl, rfl, rfl⟩

theorem calc_with_anomalies (goiKw : List String) (db : List Scheme) (a : ScoreArticle)
    (h : detect_anomalies goiKw (articleWithDetectedSchemes db a) ≠ []) :
    (calculate_confidence_score goiKw db a).auto_approved = false ∧
    (calculate_confidence_score goiKw db a).needs_verification = true ∧
    (calculate_confidence_score goiKw db a).anomalies =
      some (detect_anomalies goiKw (articleWithDetectedSchemes db a)) := by
  unfold calculate_confidence_score
  dsimp only
  rw [if_pos h]
  exact ⟨rfl, rfl, rfl⟩

theorem routeFlags_level_cases (f : Int) :
    ((routeFlags f).1 = "high" ↔ 80 ≤ f) ∧
    ((routeFlags f).1 = "medium" ↔ 50 ≤ f ∧ f < 80) ∧
    ((routeFlags f).1 = "low" ↔ f < 50) := by
  by_cases h1 : 80 ≤ f
  · rw [routeFlags_high f h1]
    refine ⟨by simp [h1], ?_, ?_⟩
    · simp only [show ¬("high" = "medium") by decide, false_iff]
      intro hc
      omega
    · simp only [show ¬("high" = "low") by decide, false_iff]
      omega
  · by_cases h2 : 50 ≤ f
    · rw [routeFlags_medium f h1 h2]
      refine ⟨?_, ?_, ?_⟩
      · simp only [show ¬("medium" = "high") by decide, false_iff]
        omega
      · simp only [true_iff, show ("medium" = "medium") by decide]
        omega
      · simp only [show ¬("medium" = "low") by decide, false_iff]
        omega
    · rw [routeFlags_low f h1 h2]
      refine ⟨?_, ?_, ?_⟩
      · simp only [show ¬("low" = "high") by decide, false_iff]
        omega
      · simp only [show ¬("low" = "medium") by decide, false_iff]
        omega
      · simp only [true_iff, show ("low" = "low") by decide]
        omega

/-- C3 counterexample: a concrete article reaching confidence 1.0 (level
`high`) whose sentiment score `0.96 > 0.95` raises an anomaly, so the
returned routing has `auto_approved = false` and `needs_verification = true`
— refuting the claim that level `high` always sets `auto_approved = true`
with `needs_verification = false`. -/
theorem C3_counterexample :
    (calculate_confidence_score sampleGoiKeywords CENTRAL_SCHEMES_frag
      highScoreAnomalousArticle).confidence_level = "high" ∧
    (calculate_confidence_score sampleGoiKeywords CENTRAL_SCHEMES_frag
      highScoreAnomalousArticle).auto_approved = false ∧
    (calculate_confidence_score sampleGoiKeywords CENTRAL_SCHEMES_frag
      highScoreAnomalousArticle).needs_verification = true ∧
    (calculate_confidence_score sampleGoiKeywords CENTRAL_SCHEMES_frag
      highScoreAnomalousArticle).anomalies = some ["unusually_positive_sentiment"] := by
  decide

/-- C3 (amended): for every keyword list, scheme table and article,
`calculate_confidence_score` returns the additive factor/penalty sum clamped
to `[0, 1]` (in hundredths: `[0, 100]`), assigns level `high` iff the clamped
score is `≥ 0.80`, `medium` iff it is in `[0.50, 0.80)` and `low` otherwise,
and, when no anomalies are detected, routes accordingly (`high` →
`auto_approved`, no verification; `medium` → `needs_verification`; `low` →
`auto_rejected`); when anomalies are detected, `needs_verification = true`
and `auto_approved = false` instead. -/
theorem C3_confidence_scoring (goiKw : List String) (db : List Scheme) (a : ScoreArticle) :
    ((calculate_confidence_score goiKw db a).confidence_score =
      max 0 (min 100 (confidence_raw_score goiKw db a))) ∧
    ((calculate_confidence_score goiKw db a).confidence_level = "high" ↔
      80 ≤ confidence_final_score goiKw db a) ∧
    ((calculate_confidence_score goiKw db a).confidence_level = "medium" ↔
      50 ≤ confidence_final_score goiKw db a ∧ confidence_final_score goiKw db a < 80) ∧
    ((calculate_confidence_score goiKw db a).confidence_level = "low" ↔
      confidence_final_score goiKw db a < 50) ∧
    (detect_anomalies goiKw (articleWithDetectedSchemes db a) = [] →
      (80 ≤ confidence_final_score goiKw db a →
        (calculate_confidence_score goiKw db a).auto_approved = true ∧
        (calculate_confidence_score goiKw db a).needs_verification = false) ∧
      (50 ≤ confidence_final_score goiKw db a → confidence_final_score goiKw db a < 80 →
        (calculate_confidence_score goiKw db a).needs_verification = true ∧
        (calculate_confidence_score goiKw db a).auto_approved = false) ∧
      (confidence_final_score goiKw db a < 50 →
        (calculate_confidence_score goiKw db a).auto_rejected = true ∧
        (calculate_confidence_score goiKw db a).auto_approved = false)) ∧
    (detect_anomalies goiKw (articleWithDetectedSchemes db a) ≠ [] →
      (calculate_confidence_score goiKw db a).needs_verification = true ∧
      (calculate_confidence_score goiKw db a).auto_approved = false) := by
  have hlv := routeFlags_level_cases (confidence_final_score goiKw db a)
  refine ⟨calc_score_eq goiKw db a, ?_, ?_, ?_, ?_, ?_⟩
  · rw [calc_level_eq]
    exact hlv.1
  · rw [calc_level_eq]
    exact hlv.2.1
  · rw [calc_level_eq]
    exact hlv.2.2
  · intro hanom
    have hcn := calc_no_anomalies goiKw db a hanom
    refine ⟨?_, ?_, ?_⟩
    · intro h80
      rw [hcn.1, hcn.2.1, routeFlags_high _ h80]
      exact ⟨rfl, rfl⟩
    · intro h50 h80
      rw [hcn.1, hcn.2.1, routeFlags_medium _ (by omega) h50]
      exact ⟨rfl, rfl⟩
    · intro h50
      rw [hcn.1, calc_rejected_eq, routeFlags_low _ (by omega) (by omega)]
      exact ⟨rfl, rfl⟩
  · intro hanom
    have hca := calc_with_anomalies goiKw db a hanom
    exact ⟨hca.2.1, hca.1⟩

/-- C3 witness: the amended theorem applied at a concrete anomaly-free
article of clamped score 1.0: level `high`, auto-approved, no
verification. -/
theorem C3_confidence_scoring_witness :
    (calculate_confidence_score sampleGoiKeywords CENTRAL_SCHEMES_frag
      highScoreCleanArticle).auto_approved = true ∧
    (calculate_confidence_score sampleGoiKeywords CENTRAL_SCHEMES_frag
      highScoreCleanArticle).needs_verification = false ∧
    (calculate_confidence_score sampleGoiKeywords CENTRAL_SCHEMES_frag
      highScoreCleanArticle).confidence_level = "high" := by
  have h := C3_confidence_scoring sampleGoiKeywords CENTRAL_SCHEMES_frag highScoreCleanArticle
  have hroute := (h.2.2.2.2.1 (by decide)).1 (by decide)
  exact ⟨hroute.1, hroute.2, h.2.1.mpr (by decide)⟩

/-- C4 (confirmed): `auto_approved` and `auto_rejected` are never both true;
whenever the returned anomalies list is non-empty, `needs_verification` is
true and `auto_approved` is false while `auto_rejected` keeps the
level-determined value (true iff the clamped score is below `0.50`); and the
per-item error default of `batch_calculate_confidence` also satisfies this
(flags `false/false/true` with a non-empty anomalies list). -/
theorem C4_routing_flags_invariant (goiKw : List String) (db : List Scheme) (a : ScoreArticle) :
    (¬ ((calculate_confidence_score goiKw db a).auto_approved = true ∧
        (calculate_confidence_score goiKw db a).auto_rejected = true)) ∧
    (∀ l, (calculate_confidence_score goiKw db a).anomalies = some l →
      (calculate_confidence_score goiKw db a).needs_verification = true ∧
      (calculate_confidence_score goiKw db a).auto_approved = false ∧
      ((calculate_confidence_score goiKw db a).auto_rejected = true ↔
        confidence_final_score goiKw db a < 50)) ∧
    (batchErrorDefault.auto_approved = false ∧ batchErrorDefault.auto_rejected = false ∧
     batchErrorDefault.needs_verification = true ∧
     batchErrorDefault.anomalies = some ["confidence_calculation_error"]) := by
  have hrej : ((routeFlags (confidence_final_score goiKw db a)).2.2.1 = true ↔
      confidence_final_score goiKw db a < 50) := by
    by_cases h1 : 80 ≤ confidence_final_score goiKw db a
    · rw [routeFlags_high _ h1]
      simp only [Bool.false_eq_true, false_iff]
      omega
    · by_cases h2 : 50 ≤ confidence_final_score goiKw db a
      · rw [routeFlags_medium _ h1 h2]
        simp only [Bool.false_eq_true, false_iff]
        omega
      · rw [routeFlags_low _ h1 h2]
        simp only [true_iff]
        omega
  refine ⟨?_, ?_, ⟨rfl, rfl, rfl, rfl⟩⟩
  · rintro ⟨happ, hrej2⟩
    by_cases hanom : detect_anomalies goiKw (articleWithDetectedSchemes db a) = []
    · have hcn := calc_no_anomalies goiKw db a hanom
      rw [hcn.1] at happ
      rw [calc_rejected_eq] at hrej2
      by_cases h1 : 80 ≤ confidence_final_score goiKw db a
      · rw [routeFlags_high _ h1] at hrej2
        exact absurd hrej2 (by decide)
      · by_cases h2 : 50 ≤ confidence_final_score goiKw db a
        · rw [routeFlags_medium _ h1 h2] at happ
          exact absurd happ (by decide)
        · rw [routeFlags_low _ h1 h2] at happ
          exact absurd happ (by decide)
    · exact absurd ((calc_with_anomalies goiKw db a hanom).1) (by rw [happ]; decide)
  · intro l hl
    by_cases hanom : detect_anomalies goiKw (articleWithDetectedSchemes db a) = []
    · have hcn := calc_no_anomalies goiKw db a hanom
      rw [hcn.2.2] at hl
      cases hl
    · have hca := calc_with_anomalies goiKw db a hanom
      refine ⟨hca.2.1, hca.1, ?_⟩
      rw [calc_rejected_eq]
      exact hrej

/-- C4 witness: the invariant applied at the concrete anomalous article:
flags are not both set, and the anomaly forces verification with
`auto_approved = false` and `auto_rejected` still false (level `high`). -/
theorem C4_routing_flags_invariant_witness :
    (calculate_confidence_score sampleGoiKeywords CENTRAL_SCHEMES_frag
      highScoreAnomalousArticle).needs_verification = true ∧
    (calculate_confidence_score sampleGoiKeywords CENTRAL_SCHEMES_frag
      highScoreAnomalousArticle).auto_approved = false ∧
    ¬ ((calculate_confidence_score sampleGoiKeywords CENTRAL_SCHEMES_frag
      highScoreAnomalousArticle).auto_approved = true ∧
       (calculate_confidence_score sampleGoiKeywords CENTRAL_SCHEMES_frag
      highScoreAnomalousArticle).auto_rejected = true) := by
  have h := C4_routing_flags_invariant sampleGoiKeywords CENTRAL_SCHEMES_frag
    highScoreAnomalousArticle
  have ha := h.2.1 ["unusually_positive_sentiment"] (by decide)
  exact ⟨ha.1, ha.2.1, h.1⟩

/-- C1 (code bug): a newly stored article that satisfies the spec's alert
predicate — alerting enabled, `sentiment_label = negative`,
`sentiment_score = 0.7 ≥ 0.6`, `goi_schemes = ["MGNREGA"] ≠ []` — does not
trigger `send_pib_alert`: the gate in `collect_once` reads
`art.get("schemes", [])`, a key the article dict never contains, so the
schemes list it tests is always empty and the alert condition evaluates to
`False`. -/
theorem C1_alert_trigger_never_fires :
    specAlertPredicate true alertArticleDict (3/5) ∧
    (upsert_article 0 [] alertArticleDict).2.2 = true ∧
    collectAlertCondition true true alertArticleDict (3/5) = false ∧
    dictFind alertArticleDict "schemes" = none ∧
    dictGetList alertArticleDict "goi_schemes" = ["MGNREGA"] := by
  have hq : dictGetQ alertArticleDict "sentiment_score" = 7/10 := rfl
  refine ⟨⟨rfl, rfl, by rw [hq]; norm_num, by decide⟩, rfl, rfl, rfl, rfl⟩

/-- C10 counterexample (to the alerting consequence): the partial word
`"bharat"` alone yields `goi_schemes = ["Ayushman Bharat - PM-JAY"]` and the
article satisfies the alert predicate, yet the `collect_once` alert
condition still evaluates to `False` — `alerting` cannot be triggered by
partial-word matches (or at all), because the gate reads the never-written
`"schemes"` key. -/
theorem C10_counterexample :
    (find_schemes_in_text CENTRAL_SCHEMES_frag "news about bharat" none).map Scheme.name =
      ["Ayushman Bharat - PM-JAY"] ∧
    specAlertPredicate true bharatArticleDict (3/5) ∧
    collectAlertCondition true true bharatArticleDict (3/5) = false := by
  have hq : dictGetQ bharatArticleDict "sentiment_score" = 4/5 := rfl
  refine ⟨by decide, ⟨rfl, rfl, by rw [hq]; norm_num, by decide⟩, rfl⟩

/-- C2 (code bug in the async path): submitting the same article dict in two
successive `collect_once` passes reports `created = 1` then
`created = 0, updated = 1`, leaves a single row in the store (matched by URL
or hash and overwritten in place), and the row's `collected_at` keeps the
first pass's timestamp; but the same scenario counted by
`AsyncNewsCollector.collect_async` reports `created = 0, updated = 0` on
both passes, because it compares the `(article, created)` tuple returned by
`Database.upsert_article` against the strings `"created"` / `"updated"`. -/
theorem C2_duplicate_upsert_counts :
    (collect_counts 0 [] [alertArticleDict]).2 = (1, 0) ∧
    (collect_counts 1 (collect_counts 0 [] [alertArticleDict]).1 [alertArticleDict]).2 = (0, 1) ∧
    (collect_counts 1 (collect_counts 0 [] [alertArticleDict]).1 [alertArticleDict]).1.length = 1 ∧
    ((collect_counts 1 (collect_counts 0 [] [alertArticleDict]).1
      [alertArticleDict]).1.head?).map Row.collected_at = some 0 ∧
    (async_collect_counts 0 [] [alertArticleDict]).2 = (0, 0) ∧
    (async_collect_counts 1 (async_collect_counts 0 [] [alertArticleDict]).1
      [alertArticleDict]).2 = (0, 0) := by
  exact ⟨rfl, rfl, rfl, rfl, rfl, rfl⟩

theorem dictFind_cons (kv : String × AVal) (rest : PyDict) (k : String) :
    dictFind (kv :: rest) k = if kv.1 == k then some kv.2 else dictFind rest k := by
  by_cases h : (kv.1 == k) = true
  · simp [dictFind, List.find?_cons_of_pos, h]
  · simp [dictFind, List.find?_cons_of_neg, h]

theorem dictFind_strip_of_mem (d : PyDict) (k : String) (hk : k ∈ confidence_fields) :
    dictFind (stripConfidenceFields d) k = none := by
  induction d with
  | nil => rfl
  | cons kv rest ih =>
    unfold stripConfidenceFields at ih ⊢
    rw [List.filter_cons]
    by_cases hc : (!(confidence_fields.contains kv.1)) = true
    · rw [if_pos hc, dictFind_cons]
      have hne : (kv.1 == k) = false := by
        cases hb : (kv.1 == k)
        · rfl
        · exfalso
          have hkk : kv.1 = k := by simpa using hb
          have hmem : confidence_fields.contains kv.1 = true := by
            rw [hkk]
            exact List.elem_iff.mpr hk
          rw [hmem] at hc
          exact absurd hc (by decide)
      rw [hne, if_neg (by decide)]
      exact ih
    · rw [if_neg hc]
      exact ih

theorem dictFind_strip_of_not_mem (d : PyDict) (k : String)
    (hk : k ∉ confidence_fields) :
    dictFind (stripConfidenceFields d) k = dictFind d k := by
  induction d with
  | nil => rfl
  | cons kv rest ih =>
    unfold stripConfidenceFields at ih ⊢
    rw [List.filter_cons]
    by_cases hb : (kv.1 == k) = true
    · have hkk : kv.1 = k := by simpa using hb
      have hcc : confidence_fields.contains kv.1 = false := by
        cases h2 : confidence_fields.contains kv.1
        · rfl
        · exfalso
          apply hk
          rw [← hkk]
          exact List.elem_iff.mp h2
      have hkeep : (!(confidence_fields.contains kv.1)) = true := by rw [hcc]; rfl
      rw [if_pos hkeep, dictFind_cons, dictFind_cons, hb]
      simp
    · have hbf : (kv.1 == k) = false := by
        cases h2 : (kv.1 == k)
        · rfl
        · exact absurd h2 hb
      by_cases hc : (!(confidence_fields.contains kv.1)) = true
      · rw [if_pos hc, dictFind_cons, dictFind_cons, hbf, if_neg (by decide)]
        rw [if_neg (by decide)]
        exact ih
      · rw [if_neg hc, dictFind_cons, hbf, if_neg (by decide)]
        exact ih

/-- C9 (confirmed): `upsert_article` strips the seven confidence-scoring
transient fields before either path — the whole upsert depends only on the
stripped dict, an inserted row has no value for a stripped key and an
updated row keeps its previous value there — and every other supplied field
is written unchanged on both paths. -/
theorem C9_upsert_strips_confidence_fields :
    (∀ (now : ℚ) (store : List Row) (d d2 : PyDict),
      stripConfidenceFields d = stripConfidenceFields d2 →
      upsert_article now store d = upsert_article now store d2) ∧
    (∀ (now : ℚ) (d : PyDict) (k : String), k ∈ confidence_fields →
      (insertRowOf now (stripConfidenceFields d)).fields k = none ∧
      ∀ r : Row, (updateRowOf (stripConfidenceFields d) r).fields k = r.fields k) ∧
    (∀ (d : PyDict) (k : String) (v : AVal) (now : ℚ), k ∉ confidence_fields →
      dictFind d k = some v →
      (insertRowOf now (stripConfidenceFields d)).fields k = some v ∧
      ∀ r : Row, (updateRowOf (stripConfidenceFields d) r).fields k = some v) := by
  refine ⟨?_, ?_, ?_⟩
  · intro now store d d2 h
    unfold upsert_article
    rw [h]
  · intro now d k hk
    have hnone := dictFind_strip_of_mem d k hk
    constructor
    · exact hnone
    · intro r
      show (match dictFind (stripConfidenceFields d) k with
        | some v => some v
        | none => r.fields k) = r.fields k
      rw [hnone]
  · intro d k v now hk hv
    have heq := (dictFind_strip_of_not_mem d k hk).trans hv
    constructor
    · exact heq
    · intro r
      show (match dictFind (stripConfidenceFields d) k with
        | some v2 => some v2
        | none => r.fields k) = some v
      rw [heq]

/-- C9 witness: the stripping theorem applied at the concrete collector
article dict — `confidence_score` is neither inserted nor overwritten, while
`url` passes through unchanged. -/
theorem C9_upsert_strips_confidence_fields_witness :
    (insertRowOf 0 (stripConfidenceFields alertArticleDict)).fields "confidence_score" = none ∧
    (updateRowOf (stripConfidenceFields alertArticleDict)
      (insertRowOf 0 (stripConfidenceFields alertArticleDict))).fields "confidence_score" =
      (insertRowOf 0 (stripConfidenceFields alertArticleDict)).fields "confidence_score" ∧
    (insertRowOf 0 (stripConfidenceFields alertArticleDict)).fields "url" =
      some (AVal.s "https://example.in/mgnrega-delay") := by
  have h2 := C9_upsert_strips_confidence_fields.2.1 0 alertArticleDict
    "confidence_score" (by decide)
  have h3 := C9_upsert_strips_confidence_fields.2.2 alertArticleDict "url"
    (AVal.s "https://example.in/mgnrega-delay") 0 (by decide) rfl
  exact ⟨h2.1, h2.2 _, h3.1⟩

end NewsScope
